import Mathlib

set_option maxHeartbeats 1000000
set_option maxRecDepth 4000

/-!
Verification of the case-law search tools of the `yevrah_terminal` repository
(`src/tools.py`).  The Python functions are shallowly embedded as executable
Lean definitions:

* strings are Lean `String`s, Python `re` substitutions over the specific
  patterns used by the source are implemented as explicit scanners over
  `List Char` (character level) or over whitespace-separated word lists
  (word level, for the `\b`-delimited word-alternation patterns);
* Python dictionaries with a fixed literal content are association lists;
* the external CourtListener HTTP client, the Cohere reranker and the
  `jurisdictions.py` module (absent from the sources: only `ALL_COURTS` and
  `search_courts` are imported from it) are passed in as explicit data, an
  exception being modelled as `Except.error`;
* `datetime.now()` is passed in as an explicit day number (proleptic
  Gregorian ordinal, 1 = 0001-01-01), `timedelta(days = k)` is subtraction
  of `k`, and `strftime` is implemented with the standard civil-from-days
  conversion.
-/

/-! ## Character and word helpers -/

/-- A single-quote character, kept out of string literals. -/
def apos : Char := Char.ofNat 39

/-- Python's `\w` character class (ASCII fragment): letters, digits, underscore. -/
def isWordChar (c : Char) : Bool := c.isAlphanum || c == '_'

/-- Prefix test on character lists.  (Self-contained so that every string
operation in this development reduces inside the kernel.) -/
def prefixOfChars : List Char → List Char → Bool
  | [], _ => true
  | _ :: _, [] => false
  | a :: as, b :: bs => a == b && prefixOfChars as bs

/-- Substring containment test (Python `needle in haystack`). -/
def containsSubstr (haystack needle : String) : Bool :=
  let h := haystack.toList
  let n := needle.toList
  (List.range (h.length + 1)).any (fun i => prefixOfChars n (h.drop i))

/-- Lower-case a string (Python `str.lower()`, ASCII fragment). -/
def strLower (s : String) : String := String.mk (s.toList.map Char.toLower)

/-- Upper-case a string (Python `str.upper()`, ASCII fragment). -/
def strUpper (s : String) : String := String.mk (s.toList.map Char.toUpper)

/-- Strip leading and trailing whitespace (Python `str.strip()`). -/
def strStrip (s : String) : String :=
  String.mk (((s.toList.dropWhile Char.isWhitespace).reverse.dropWhile
    Char.isWhitespace).reverse)

/-- Split a string on whitespace runs, discarding empties — Python `str.split()`. -/
def wordsOfAux : List Char → List Char → List String
  | [], acc => if acc.isEmpty then [] else [String.mk acc.reverse]
  | c :: cs, acc =>
    if c.isWhitespace then
      if acc.isEmpty then wordsOfAux cs []
      else String.mk acc.reverse :: wordsOfAux cs []
    else wordsOfAux cs (c :: acc)

def wordsOf (s : String) : List String := wordsOfAux s.toList []

/-- Join words with single blanks. -/
def joinWords : List String → String
  | [] => ""
  | [w] => w
  | w :: ws => w ++ " " ++ joinWords ws

/-! ## Boolean-operator detection (src/tools.py:1105, 1159)

`re.search(r'(\b(AND|OR|NOT)\b|[&%])', query, re.IGNORECASE)`. -/

/-- Case-insensitive match of the word `w` at index `i` of `cs`, with `\b`
word boundaries on both sides. -/
def opWordAt (cs : List Char) (i : Nat) (w : List Char) : Bool :=
  (((cs.drop i).take w.length).map Char.toLower == w) &&
  (i == 0 || !isWordChar (cs.getD (i - 1) ' ')) &&
  (decide (cs.length ≤ i + w.length) || !isWordChar (cs.getD (i + w.length) ' '))

/-- Embeds the operator-detection regex: a `&` or `%` anywhere, or a
case-insensitive whole-word occurrence of `AND`, `OR` or `NOT`. -/
def has_boolean_operators (query : String) : Bool :=
  let cs := query.toList
  cs.contains '&' || cs.contains '%' ||
  (List.range cs.length).any (fun i =>
    opWordAt cs i "and".toList || opWordAt cs i "or".toList ||
    opWordAt cs i "not".toList)

/-! ## convert_boolean_to_natural_language (src/tools.py:1082-1134)

Each `re.sub` of the source is a left-to-right scanner: at every position the
pattern is tried; on a match the replacement is emitted and scanning resumes
after the matched span, exactly as `re.sub` does. -/

/-- Generic single-pass substitution driver.  `step` tries to match a pattern
at the head of the character list, returning the replacement text and the
remainder after the matched span.  Every pattern used consumes at least one
character, so a fuel of `cs.length` is exact. -/
def scanSub (step : List Char → Option (List Char × List Char)) :
    Nat → List Char → List Char
  | 0, cs => cs
  | _ + 1, [] => []
  | fuel + 1, c :: cs =>
    match step (c :: cs) with
    | some (out, rest) => out ++ scanSub step fuel rest
    | none => c :: scanSub step fuel cs

/-- Run a substitution over a whole character list. -/
def runSub (step : List Char → Option (List Char × List Char))
    (cs : List Char) : List Char :=
  scanSub step cs.length cs

/-- Pattern `\s*&\s*` (replaced by a blank). -/
def stepAmp (cs : List Char) : Option (List Char × List Char) :=
  let rest := cs.dropWhile Char.isWhitespace
  match rest with
  | '&' :: rest2 => some ([' '], rest2.dropWhile Char.isWhitespace)
  | _ => none

/-- Pattern `\s*%\s*` (replaced by ` NOT `). -/
def stepPct (cs : List Char) : Option (List Char × List Char) :=
  let rest := cs.dropWhile Char.isWhitespace
  match rest with
  | '%' :: rest2 => some (" NOT ".toList, rest2.dropWhile Char.isWhitespace)
  | _ => none

/-- Pattern `\s+KW\s+` case-insensitively, replaced by `rep`. -/
def stepKw (kw rep : List Char) (cs : List Char) : Option (List Char × List Char) :=
  let ws1 := cs.takeWhile Char.isWhitespace
  if ws1.isEmpty then none
  else
    let r1 := cs.drop ws1.length
    if (r1.take kw.length).map Char.toLower == kw then
      let r2 := r1.drop kw.length
      let ws2 := r2.takeWhile Char.isWhitespace
      if ws2.isEmpty then none
      else some (rep, r2.drop ws2.length)
    else none

/-- Pattern `\s+` (whitespace-run collapse, replaced by a blank). -/
def stepCollapse (cs : List Char) : Option (List Char × List Char) :=
  match cs with
  | c :: rest =>
    if c.isWhitespace then some ([' '], rest.dropWhile Char.isWhitespace)
    else none
  | [] => none

/-- Collapse whitespace runs to single blanks (`re.sub(r'\s+', ' ', s)`). -/
def collapseWs (s : String) : String := String.mk (runSub stepCollapse s.toList)

/-- Embeds `convert_boolean_to_natural_language`: a query without Boolean
operators is returned unchanged; otherwise `&`/`AND` are elided, `%`/`NOT`
become `but not`, `OR` becomes `or`, parentheses are blanked and whitespace
is collapsed. -/
def convert_boolean_to_natural_language (query : String) : String :=
  if has_boolean_operators query then
    let r := query.toList
    let r := runSub stepAmp r
    let r := runSub (stepKw "and".toList [' ']) r
    let r := runSub stepPct r
    let r := runSub (stepKw "not".toList " but not ".toList) r
    let r := runSub (stepKw "or".toList " or ".toList) r
    let r := r.map (fun c => if c = '(' || c = ')' then ' ' else c)
    let r := runSub stepCollapse r
    strStrip (String.mk r)
  else query

/-! ## extract_search_query (src/tools.py:86-183)

The noise/jurisdiction/typo regexes of the source are `\b`-delimited
alternations of literal word sequences (plus `\d+`, `\d{4}` and optional-`s`
word forms); they are embedded at the level of whitespace-separated word
lists.  `re.sub(pat, '', q)` becomes removal of every (leftmost,
non-overlapping) matching word-sequence, and the whitespace collapse of
step 2 is implicit in the word-list representation. -/

/-- One word-position of a pattern. -/
inductive WPat where
  | lit : String → WPat
  | oneOf : List String → WPat
  | digits : WPat
  | digits4 : WPat
deriving Repr

def wpatMatches : WPat → String → Bool
  | .lit s, w => w == s
  | .oneOf l, w => l.contains w
  | .digits, w => !w.isEmpty && w.toList.all Char.isDigit
  | .digits4, w => w.length == 4 && w.toList.all Char.isDigit

/-- Match a word-sequence pattern as a prefix of a word list, returning the
remainder. -/
def matchSeq : List WPat → List String → Option (List String)
  | [], ws => some ws
  | _ :: _, [] => none
  | p :: ps, w :: ws => if wpatMatches p w then matchSeq ps ws else none

/-- First matching alternative (regex alternation order). -/
def matchAlts (alts : List (List WPat)) (ws : List String) : Option (List String) :=
  match alts with
  | [] => none
  | a :: rest =>
    match matchSeq a ws with
    | some r => some r
    | none => matchAlts rest ws

/-- Remove every leftmost non-overlapping match of `alts` from a word list
(`re.sub(pat, '', s)` for a word-alternation pattern).  All alternatives
used are non-empty, so a fuel of `ws.length` is exact. -/
def removeAllAux (alts : List (List WPat)) : Nat → List String → List String
  | 0, ws => ws
  | _ + 1, [] => []
  | fuel + 1, w :: ws =>
    match matchAlts alts (w :: ws) with
    | some rest => removeAllAux alts fuel rest
    | none => w :: removeAllAux alts fuel ws

def removeAll (alts : List (List WPat)) (ws : List String) : List String :=
  removeAllAux alts ws.length ws

/-- Pattern `cases?` -/
def casesW : WPat := .oneOf ["cases", "case"]
/-- Pattern `courts?` -/
def courtsW : WPat := .oneOf ["courts", "court"]
/-- Pattern `years?` -/
def yearsW : WPat := .oneOf ["years", "year"]
/-- Pattern `last|past` -/
def lastPastW : WPat := .oneOf ["last", "past"]

/-- The contraction word of NOISE_PHRASES line 2 (kept out of string
literals because of the quote character). -/
def imWord : String := "i" ++ String.mk [apos] ++ "m"

/-- NOISE_PHRASES (src/tools.py:22-45), one alternation list per regex,
in source order. -/
def NOISE_PHRASES : List (List (List WPat)) :=
  [ -- request phrases
    [[.lit "find", .lit "me"], [.lit "i", .lit "need"], [.lit "looking", .lit "for"],
     [.lit "search", .lit "for"], [.lit "get", .lit "me"], [.lit "show", .lit "me"],
     [.lit "can", .lit "you", .lit "find"]],
    [[.lit imWord, .lit "looking", .lit "for"],
     [.lit "i", .lit "am", .lit "looking", .lit "for"], [.lit "i", .lit "want"]],
    [[.lit "please", .lit "find"], [.lit "please", .lit "search"],
     [.lit "please", .lit "get"]],
    -- case references
    [[casesW, .lit "about"], [casesW, .lit "regarding"], [casesW, .lit "involving"],
     [casesW, .lit "related", .lit "to"], [casesW, .lit "on"], [casesW, .lit "for"],
     [casesW, .lit "where"], [casesW, .lit "in", .lit "which"]],
    [[.lit "case", .lit "law", .oneOf ["about", "regarding", "on", "for"]],
     [.lit "case", .lit "laws", .oneOf ["about", "regarding", "on", "for"]],
     [.lit "legal", casesW, .oneOf ["about", "regarding", "on", "for"]]],
    [[casesW, .lit "from"]],
    [[casesW, .lit "in"]],
    [[casesW]],
    [[courtsW]],
    [[.lit "in", .lit "a"]],
    -- location phrases with context
    [[.lit "in", .lit "california"], [.lit "in", .lit "ca"], [.lit "in", .lit "cal"],
     [.lit "in", .lit "new", .lit "york"], [.lit "in", .lit "ny"],
     [.lit "in", .lit "texas"], [.lit "in", .lit "tx"], [.lit "in", .lit "florida"],
     [.lit "in", .lit "fl"], [.lit "in", .lit "illinois"], [.lit "in", .lit "il"]],
    [[.lit "from", .lit "the",
      .oneOf ["9th", "ninth", "first", "second", "third", "fourth", "fifth",
              "sixth", "seventh", "eighth", "tenth", "eleventh", "dc", "federal"],
      .lit "circuit"],
     [.lit "from",
      .oneOf ["9th", "ninth", "first", "second", "third", "fourth", "fifth",
              "sixth", "seventh", "eighth", "tenth", "eleventh", "dc", "federal"],
      .lit "circuit"]],
    [[.lit "from", .lit "california"], [.lit "from", .lit "ca"],
     [.lit "from", .lit "cal"], [.lit "from", .lit "new", .lit "york"],
     [.lit "from", .lit "ny"], [.lit "from", .lit "texas"], [.lit "from", .lit "tx"],
     [.lit "from", .lit "florida"], [.lit "from", .lit "fl"]],
    -- time phrases
    [[.lit "from", .lit "the", lastPastW, .digits, yearsW],
     [.lit "from", lastPastW, .digits, yearsW]],
    [[lastPastW, .digits, yearsW]],
    [[.lit "since", .digits4]],
    [[.lit "before", .digits4]],
    [[.digits4, .lit "to", .digits4]] ]

/-- JURISDICTION_WORDS (src/tools.py:48-61), one alternation list per regex,
in source order. -/
def JURISDICTION_WORDS : List (List (List WPat)) :=
  [ [[.oneOf ["california", "ca", "cal"]]],
    [[.lit "new", .lit "york"], [.lit "ny"], [.lit "nyc"]],
    [[.oneOf ["texas", "tx"]]],
    [[.oneOf ["florida", "fl", "fla"]]],
    [[.oneOf ["illinois", "il"]]],
    [[.oneOf ["georgia", "ga"]]],
    [[.oneOf ["ohio", "oh"]]],
    [[.oneOf ["michigan", "mi"]]],
    [[.oneOf ["pennsylvania", "pa"]]],
    [[.oneOf ["federal", "state"]]],
    [[.oneOf ["ninth", "9th", "first", "1st", "second", "2nd", "third", "3rd",
              "fourth", "4th", "fifth", "5th", "sixth", "6th", "seventh", "7th",
              "eighth", "8th", "tenth", "10th", "eleventh", "11th", "dc"],
      .lit "circuit"]],
    [[.lit "scotus"], [.lit "supreme", .lit "court"]] ]

/-- Typo fixes of step 3 (src/tools.py:129-135): single-word `\b`-delimited
replacements. -/
def typoFix (w : String) : String :=
  if w == "fal" then "fall"
  else if w == "neglgence" then "negligence"
  else if w == "liablity" then "liability"
  else if w == "contarct" then "contract"
  else if w == "employ" then "employment"
  else w

/-- LEGAL_TERM_EXPANSIONS (src/tools.py:64-83), in insertion order. -/
def LEGAL_TERM_EXPANSIONS : List (String × String) :=
  let q := String.mk ['"']
  [ ("slip and fall", "slip AND fall"),
    ("slip & fall", "slip AND fall"),
    ("breach of contract", "breach AND contract"),
    ("breach of fiduciary duty", q ++ "breach of fiduciary duty" ++ q),
    ("premises liability", q ++ "premises liability" ++ q),
    ("wrongful termination", q ++ "wrongful termination" ++ q),
    ("employment discrimination", q ++ "employment discrimination" ++ q),
    ("personal injury", q ++ "personal injury" ++ q),
    ("medical malpractice", q ++ "medical malpractice" ++ q),
    ("product liability", q ++ "product liability" ++ q),
    ("intellectual property", q ++ "intellectual property" ++ q),
    ("trade secret", q ++ "trade secret" ++ q),
    ("non compete", q ++ "non-compete" ++ q ++ " OR " ++ q ++ "noncompete" ++ q),
    ("due process", q ++ "due process" ++ q),
    ("equal protection", q ++ "equal protection" ++ q),
    ("first amendment", q ++ "first amendment" ++ q),
    ("fourth amendment", q ++ "fourth amendment" ++ q),
    ("qualified immunity", q ++ "qualified immunity" ++ q) ]

/-- Replace every leftmost non-overlapping occurrence of `pat` (non-empty)
in `cs` by `rep` — `re.sub(re.escape(pat), rep, s)` on lower-case text. -/
def replaceSubAux (pat rep : List Char) : Nat → List Char → List Char
  | 0, cs => cs
  | _ + 1, [] => []
  | fuel + 1, c :: cs =>
    if prefixOfChars pat (c :: cs) then
      rep ++ replaceSubAux pat rep fuel ((c :: cs).drop pat.length)
    else c :: replaceSubAux pat rep fuel cs

def replaceSub (pat rep : String) (s : String) : String :=
  String.mk (replaceSubAux pat.toList rep.toList s.toList.length s.toList)

/-- Join words with a separator (Python `sep.join(words)`). -/
def joinWith (sep : String) : List String → String
  | [] => ""
  | [w] => w
  | w :: ws => w ++ sep ++ joinWith sep ws

/-- Step 5 of `extract_search_query` (keyword optimisation,
src/tools.py:146-168).  The expansion loop breaks after the first matching
term; the query text is all lower-case at this point, so the
`re.IGNORECASE` literal substitution is a plain substring replacement. -/
def keywordStep (query : String) : String :=
  match LEGAL_TERM_EXPANSIONS.find? (fun te => containsSubstr (strLower query) te.1) with
  | some (term, expansion) => replaceSub term expansion query
  | none =>
    let ws := wordsOf query
    if ws.length ≥ 2 && !containsSubstr (strUpper query) "AND" &&
       !containsSubstr (strUpper query) "OR" && !query.toList.contains '"' then
      if ws.length ≤ 4 then joinWith " AND " ws else query
    else query

/-- Steps 1-5 of `extract_search_query` plus the final `strip`
(src/tools.py:111-171): noise-phrase removal, jurisdiction-word removal,
whitespace collapse, typo fixes, article trimming, optional keyword
optimisation. -/
def extractPipeline (query0 : String) (use_keyword : Bool) : String :=
  let ws := wordsOf query0
  let ws := NOISE_PHRASES.foldl (fun acc p => removeAll p acc) ws
  let ws := JURISDICTION_WORDS.foldl (fun acc p => removeAll p acc) ws
  let ws := ws.map typoFix
  -- step 4: `^(the|a|an|some|any)\s+` needs a following blank, so it only
  -- fires when at least one more word follows; likewise for the trailing sub
  let ws := match ws with
    | w :: rest =>
      if ["the", "a", "an", "some", "any"].contains w && rest ≠ [] then rest
      else w :: rest
    | [] => []
  let ws := match ws.reverse with
    | w :: rest =>
      if ["the", "a", "an"].contains w && rest ≠ [] then rest.reverse
      else ws
    | [] => ws
  let q := joinWords ws
  let q := if use_keyword then keywordStep q else q
  strStrip q

/-- The fallback noise words of the final step (src/tools.py:175):
`find|me|need|looking|for|search|cases?|about`. -/
def fallbackCleaned (original : String) : String :=
  joinWords ((wordsOf original).filter (fun w =>
    !(["find", "me", "need", "looking", "for", "search", "cases", "case",
       "about"].contains w)))

structure ExtractResult where
  query : String
  original : String
deriving DecidableEq, Repr

/-- Embeds `extract_search_query` (src/tools.py:86-183).  The
`transformations` diagnostic list of the source is not modelled. -/
def extract_search_query (raw_input : String) (use_keyword : Bool := false) :
    ExtractResult :=
  if raw_input == "" then { query := "", original := raw_input }
  else
    let original := strStrip (strLower raw_input)
    let q := extractPipeline original use_keyword
    let q := if q == "" || q.length < 3 then fallbackCleaned original else q
    { query := q, original := raw_input }

/-! ## Jurisdiction resolution (src/tools.py:194-823) -/

/-- STATE_COURT_MAPPING (src/tools.py:194-656), transcribed entry for entry
in source order.  Python dictionary lookup is association-list lookup (the
keys are pairwise distinct). -/
def STATE_COURT_MAPPING : List (String × String) :=
  [
    ("alabama", "ala alactapp alacrimapp ca11 almd alnd alsd almb alnb alsb"),
    ("alabama state", "ala alactapp alacrimapp"),
    ("alabama federal", "ca11 almd alnd alsd almb alnb alsb"),
    ("al", "ala alactapp alacrimapp ca11 almd alnd alsd almb alnb alsb"),
    ("al federal", "ca11 almd alnd alsd almb alnb alsb"),
    ("alaska", "alaska alaskactapp ca9 akd akb"),
    ("alaska state", "alaska alaskactapp"),
    ("alaska federal", "ca9 akd akb"),
    ("ak", "alaska alaskactapp ca9 akd akb"),
    ("arizona", "ariz arizctapp ca9 azd azb"),
    ("arizona state", "ariz arizctapp"),
    ("arizona federal", "ca9 azd azb"),
    ("az", "ariz arizctapp ca9 azd azb"),
    ("arkansas", "ark arkctapp ca8 ared arwd areb arwb"),
    ("arkansas state", "ark arkctapp"),
    ("arkansas federal", "ca8 ared arwd areb arwb"),
    ("ar", "ark arkctapp ca8 ared arwd areb arwb"),
    ("california", "cal calctapp calappdeptsuper ca9 cacd caed cand casd californiad cacb caeb canb casb calag"),
    ("california state", "cal calctapp calappdeptsuper"),
    ("california federal", "ca9 cacd caed cand casd californiad cacb caeb canb casb"),
    ("ca", "cal calctapp calappdeptsuper ca9 cacd caed cand casd californiad cacb caeb canb casb calag"),
    ("calif", "cal calctapp calappdeptsuper ca9 cacd caed cand casd californiad cacb caeb canb casb calag"),
    ("colorado", "colo coloctapp ca10 cod cob"),
    ("colorado state", "colo coloctapp"),
    ("colorado federal", "ca10 cod cob"),
    ("co", "colo coloctapp ca10 cod cob"),
    ("connecticut", "conn connappct ca2 ctd ctb"),
    ("connecticut state", "conn connappct"),
    ("connecticut federal", "ca2 ctd ctb"),
    ("ct", "conn connappct ca2 ctd ctb"),
    ("delaware", "del ca3 ded deb"),
    ("delaware state", "del"),
    ("delaware federal", "ca3 ded deb"),
    ("de", "del ca3 ded deb"),
    ("district of columbia", "dc cadc dcd"),
    ("washington dc", "dc cadc dcd"),
    ("d.c.", "dc cadc dcd"),
    ("dc", "dc cadc dcd"),
    ("florida", "fla flactapp ca11 flmd flnd flsd flmb flnb flsb flaag"),
    ("florida state", "fla flactapp"),
    ("florida federal", "ca11 flmd flnd flsd flmb flnb flsb"),
    ("fl", "fla flactapp ca11 flmd flnd flsd flmb flnb flsb flaag"),
    ("fla", "fla flactapp ca11 flmd flnd flsd flmb flnb flsb flaag"),
    ("georgia", "ga gactapp ca11 gamd gand gasd gamb ganb gasb"),
    ("georgia state", "ga gactapp"),
    ("georgia federal", "ca11 gamd gand gasd gamb ganb gasb"),
    ("ga", "ga gactapp ca11 gamd gand gasd gamb ganb gasb"),
    ("hawaii", "haw hawctapp ca9 hid hib"),
    ("hawaii state", "haw hawctapp"),
    ("hawaii federal", "ca9 hid hib"),
    ("hi", "haw hawctapp ca9 hid hib"),
    ("idaho", "idaho idahoctapp ca9 idd idb"),
    ("idaho state", "idaho idahoctapp"),
    ("idaho federal", "ca9 idd idb"),
    ("id", "idaho idahoctapp ca9 idd idb"),
    ("illinois", "ill illappct ca7 ilcd ilnd ilsd ilcb ilnb ilsb"),
    ("illinois state", "ill illappct"),
    ("illinois federal", "ca7 ilcd ilnd ilsd ilcb ilnb ilsb"),
    ("il", "ill illappct ca7 ilcd ilnd ilsd ilcb ilnb ilsb"),
    ("indiana", "ind indctapp ca7 innd insd innb insb"),
    ("indiana state", "ind indctapp"),
    ("indiana federal", "ca7 innd insd innb insb"),
    ("in", "ind indctapp ca7 innd insd innb insb"),
    ("iowa", "iowa iowactapp ca8 iand iasd ianb iasb"),
    ("iowa state", "iowa iowactapp"),
    ("iowa federal", "ca8 iand iasd ianb iasb"),
    ("ia", "iowa iowactapp ca8 iand iasd ianb iasb"),
    ("kansas", "kan kanctapp ca10 ksd ksb"),
    ("kansas state", "kan kanctapp"),
    ("kansas federal", "ca10 ksd ksb"),
    ("ks", "kan kanctapp ca10 ksd ksb"),
    ("kentucky", "ky kyctapp ca6 kyed kywd kyeb kywb"),
    ("kentucky state", "ky kyctapp"),
    ("kentucky federal", "ca6 kyed kywd kyeb kywb"),
    ("ky", "ky kyctapp ca6 kyed kywd kyeb kywb"),
    ("louisiana", "la lactapp ca5 laed lamd lawd laeb lamb lawb"),
    ("louisiana state", "la lactapp"),
    ("louisiana federal", "ca5 laed lamd lawd laeb lamb lawb"),
    ("la", "la lactapp ca5 laed lamd lawd laeb lamb lawb"),
    ("maine", "me ca1 med meb"),
    ("maine state", "me"),
    ("maine federal", "ca1 med meb"),
    ("me", "me ca1 med meb"),
    ("maryland", "md mdctspecapp ca4 mdd mdb"),
    ("maryland state", "md mdctspecapp"),
    ("maryland federal", "ca4 mdd mdb"),
    ("md", "md mdctspecapp ca4 mdd mdb"),
    ("massachusetts", "mass massappct ca1 mad mab"),
    ("massachusetts state", "mass massappct"),
    ("massachusetts federal", "ca1 mad mab"),
    ("ma", "mass massappct ca1 mad mab"),
    ("michigan", "mich michctapp ca6 mied miwd mieb miwb"),
    ("michigan state", "mich michctapp"),
    ("michigan federal", "ca6 mied miwd mieb miwb"),
    ("mi", "mich michctapp ca6 mied miwd mieb miwb"),
    ("minnesota", "minn minnctapp ca8 mnd mnb"),
    ("minnesota state", "minn minnctapp"),
    ("minnesota federal", "ca8 mnd mnb"),
    ("mn", "minn minnctapp ca8 mnd mnb"),
    ("mississippi", "miss missctapp ca5 msnd mssd msnb mssb"),
    ("mississippi state", "miss missctapp"),
    ("mississippi federal", "ca5 msnd mssd msnb mssb"),
    ("ms", "miss missctapp ca5 msnd mssd msnb mssb"),
    ("missouri", "mo moctapp ca8 moed mowd moeb mowb"),
    ("missouri state", "mo moctapp"),
    ("missouri federal", "ca8 moed mowd moeb mowb"),
    ("mo", "mo moctapp ca8 moed mowd moeb mowb"),
    ("montana", "mont ca9 mtd mtb"),
    ("montana state", "mont"),
    ("montana federal", "ca9 mtd mtb"),
    ("mt", "mont ca9 mtd mtb"),
    ("nebraska", "neb nebctapp ca8 ned neb"),
    ("nebraska state", "neb nebctapp"),
    ("nebraska federal", "ca8 ned neb"),
    ("ne", "neb nebctapp ca8 ned neb"),
    ("nevada", "nev nevapp ca9 nvd nvb"),
    ("nevada state", "nev nevapp"),
    ("nevada federal", "ca9 nvd nvb"),
    ("nv", "nev nevapp ca9 nvd nvb"),
    ("new hampshire", "nh ca1 nhd nhb"),
    ("new hampshire state", "nh"),
    ("new hampshire federal", "ca1 nhd nhb"),
    ("nh", "nh ca1 nhd nhb"),
    ("new jersey", "nj njsuperctappdiv ca3 njd njb"),
    ("new jersey state", "nj njsuperctappdiv"),
    ("new jersey federal", "ca3 njd njb"),
    ("nj", "nj njsuperctappdiv ca3 njd njb"),
    ("new mexico", "nm nmctapp ca10 nmd nmb"),
    ("new mexico state", "nm nmctapp"),
    ("new mexico federal", "ca10 nmd nmb"),
    ("nm", "nm nmctapp ca10 nmd nmb"),
    ("new york", "ny nyappdiv nyappterm ca2 nyed nynd nysd nywd nyeb nynb nysb nywb"),
    ("new york state", "ny nyappdiv nyappterm"),
    ("new york federal", "ca2 nyed nynd nysd nywd nyeb nynb nysb nywb"),
    ("ny", "ny nyappdiv nyappterm ca2 nyed nynd nysd nywd nyeb nynb nysb nywb"),
    ("nyc", "ny nyappdiv ca2 nysd nyed nysb nyeb"),
    ("north carolina", "nc ncctapp ca4 nced ncmd ncwd nceb ncmb ncwb"),
    ("north carolina state", "nc ncctapp"),
    ("north carolina federal", "ca4 nced ncmd ncwd nceb ncmb ncwb"),
    ("nc", "nc ncctapp ca4 nced ncmd ncwd nceb ncmb ncwb"),
    ("north dakota", "nd ndctapp ca8 ndd ndb"),
    ("north dakota state", "nd ndctapp"),
    ("north dakota federal", "ca8 ndd ndb"),
    ("nd", "nd ndctapp ca8 ndd ndb"),
    ("ohio", "ohio ohioctapp ca6 ohnd ohsd ohnb ohsb"),
    ("ohio state", "ohio ohioctapp"),
    ("ohio federal", "ca6 ohnd ohsd ohnb ohsb"),
    ("oh", "ohio ohioctapp ca6 ohnd ohsd ohnb ohsb"),
    ("oklahoma", "okla oklacivapp oklacrimapp ca10 oked oknd okwd okeb oknb okwb"),
    ("oklahoma state", "okla oklacivapp oklacrimapp"),
    ("oklahoma federal", "ca10 oked oknd okwd okeb oknb okwb"),
    ("ok", "okla oklacivapp oklacrimapp ca10 oked oknd okwd okeb oknb okwb"),
    ("oregon", "or orctapp ca9 ord orb"),
    ("oregon state", "or orctapp"),
    ("oregon federal", "ca9 ord orb"),
    ("or", "or orctapp ca9 ord orb"),
    ("pennsylvania", "pa pasuperct pacommwct ca3 paed pamd pawd paeb pamb pawb"),
    ("pennsylvania state", "pa pasuperct pacommwct"),
    ("pennsylvania federal", "ca3 paed pamd pawd paeb pamb pawb"),
    ("penn", "pa pasuperct pacommwct ca3 paed pamd pawd paeb pamb pawb"),
    ("pa", "pa pasuperct pacommwct ca3 paed pamd pawd paeb pamb pawb"),
    ("rhode island", "ri ca1 rid rib"),
    ("rhode island state", "ri"),
    ("rhode island federal", "ca1 rid rib"),
    ("ri", "ri ca1 rid rib"),
    ("south carolina", "sc scctapp ca4 scd scb"),
    ("south carolina state", "sc scctapp"),
    ("south carolina federal", "ca4 scd scb"),
    ("sc", "sc scctapp ca4 scd scb"),
    ("south dakota", "sd ca8 sdd sdb"),
    ("south dakota state", "sd"),
    ("south dakota federal", "ca8 sdd sdb"),
    ("sd", "sd ca8 sdd sdb"),
    ("tennessee", "tenn tennctapp tenncrimapp ca6 tned tnmd tnwd tneb tnmb tnwb"),
    ("tennessee state", "tenn tennctapp tenncrimapp"),
    ("tennessee federal", "ca6 tned tnmd tnwd tneb tnmb tnwb"),
    ("tn", "tenn tennctapp tenncrimapp ca6 tned tnmd tnwd tneb tnmb tnwb"),
    ("texas", "tex texcrimapp texapp ca5 txed txnd txsd txwd txeb txnb txsb txwb"),
    ("texas state", "tex texcrimapp texapp"),
    ("texas federal", "ca5 txed txnd txsd txwd txeb txnb txsb txwb"),
    ("tx", "tex texcrimapp texapp ca5 txed txnd txsd txwd txeb txnb txsb txwb"),
    ("utah", "utah utahctapp ca10 utd utb"),
    ("utah state", "utah utahctapp"),
    ("utah federal", "ca10 utd utb"),
    ("ut", "utah utahctapp ca10 utd utb"),
    ("vermont", "vt ca2 vtd vtb"),
    ("vermont state", "vt"),
    ("vermont federal", "ca2 vtd vtb"),
    ("vt", "vt ca2 vtd vtb"),
    ("virginia", "va vactapp ca4 vaed vawd vaeb vawb"),
    ("virginia state", "va vactapp"),
    ("virginia federal", "ca4 vaed vawd vaeb vawb"),
    ("va", "va vactapp ca4 vaed vawd vaeb vawb"),
    ("washington", "wash washctapp ca9 waed wawd waeb wawb"),
    ("washington state", "wash washctapp"),
    ("washington federal", "ca9 waed wawd waeb wawb"),
    ("wa", "wash washctapp ca9 waed wawd waeb wawb"),
    ("west virginia", "wva ca4 wvnd wvsd wvnb wvsb"),
    ("west virginia state", "wva"),
    ("west virginia federal", "ca4 wvnd wvsd wvnb wvsb"),
    ("wv", "wva ca4 wvnd wvsd wvnb wvsb"),
    ("wisconsin", "wis wisctapp ca7 wied wiwd wieb wiwb"),
    ("wisconsin state", "wis wisctapp"),
    ("wisconsin federal", "ca7 wied wiwd wieb wiwb"),
    ("wi", "wis wisctapp ca7 wied wiwd wieb wiwb"),
    ("wyoming", "wyo ca10 wyd wyb"),
    ("wyoming state", "wyo"),
    ("wyoming federal", "ca10 wyd wyb"),
    ("wy", "wyo ca10 wyd wyb"),
    ("ak federal", "ca9 akd akb"),
    ("az federal", "ca9 azd azb"),
    ("ar federal", "ca8 ared arwd areb arwb"),
    ("ca federal", "ca9 cacd caed cand casd californiad cacb caeb canb casb"),
    ("co federal", "ca10 cod cob"),
    ("ct federal", "ca2 ctd ctb"),
    ("de federal", "ca3 ded deb"),
    ("fl federal", "ca11 flmd flnd flsd flmb flnb flsb"),
    ("ga federal", "ca11 gamd gand gasd gamb ganb gasb"),
    ("hi federal", "ca9 hid hib"),
    ("id federal", "ca9 idd idb"),
    ("il federal", "ca7 ilcd ilnd ilsd ilcb ilnb ilsb"),
    ("in federal", "ca7 innd insd innb insb"),
    ("ia federal", "ca8 iand iasd ianb iasb"),
    ("ks federal", "ca10 ksd ksb"),
    ("ky federal", "ca6 kyed kywd kyeb kywb"),
    ("la federal", "ca5 laed lamd lawd laeb lamb lawb"),
    ("me federal", "ca1 med meb"),
    ("md federal", "ca4 mdd mdb"),
    ("ma federal", "ca1 mad mab"),
    ("mi federal", "ca6 mied miwd mieb miwb"),
    ("mn federal", "ca8 mnd mnb"),
    ("ms federal", "ca5 msnd mssd msnb mssb"),
    ("mo federal", "ca8 moed mowd moeb mowb"),
    ("mt federal", "ca9 mtd mtb"),
    ("ne federal", "ca8 ned neb"),
    ("nv federal", "ca9 nvd nvb"),
    ("nh federal", "ca1 nhd nhb"),
    ("nj federal", "ca3 njd njb"),
    ("nm federal", "ca10 nmd nmb"),
    ("ny federal", "ca2 nyed nynd nysd nywd nyeb nynb nysb nywb"),
    ("nc federal", "ca4 nced ncmd ncwd nceb ncmb ncwb"),
    ("nd federal", "ca8 ndd ndb"),
    ("oh federal", "ca6 ohnd ohsd ohnb ohsb"),
    ("ok federal", "ca10 oked oknd okwd okeb oknb okwb"),
    ("or federal", "ca9 ord orb"),
    ("pa federal", "ca3 paed pamd pawd paeb pamb pawb"),
    ("ri federal", "ca1 rid rib"),
    ("sc federal", "ca4 scd scb"),
    ("sd federal", "ca8 sdd sdb"),
    ("tn federal", "ca6 tned tnmd tnwd tneb tnmb tnwb"),
    ("tx federal", "ca5 txed txnd txsd txwd txeb txnb txsb txwb"),
    ("ut federal", "ca10 utd utb"),
    ("vt federal", "ca2 vtd vtb"),
    ("va federal", "ca4 vaed vawd vaeb vawb"),
    ("wa federal", "ca9 waed wawd waeb wawb"),
    ("wv federal", "ca4 wvnd wvsd wvnb wvsb"),
    ("wi federal", "ca7 wied wiwd wieb wiwb"),
    ("wy federal", "ca10 wyd wyb"),
    ("al state", "ala alactapp alacrimapp"),
    ("ak state", "alaska alaskactapp"),
    ("az state", "ariz arizctapp"),
    ("ar state", "ark arkctapp"),
    ("ca state", "cal calctapp calappdeptsuper"),
    ("co state", "colo coloctapp"),
    ("ct state", "conn connappct"),
    ("de state", "del"),
    ("fl state", "fla flactapp"),
    ("ga state", "ga gactapp"),
    ("hi state", "haw hawctapp"),
    ("id state", "idaho idahoctapp"),
    ("il state", "ill illappct"),
    ("in state", "ind indctapp"),
    ("ia state", "iowa iowactapp"),
    ("ks state", "kan kanctapp"),
    ("ky state", "ky kyctapp"),
    ("la state", "la lactapp"),
    ("me state", "me"),
    ("md state", "md mdctspecapp"),
    ("ma state", "mass massappct"),
    ("mi state", "mich michctapp"),
    ("mn state", "minn minnctapp"),
    ("ms state", "miss missctapp"),
    ("mo state", "mo moctapp"),
    ("mt state", "mont"),
    ("ne state", "neb nebctapp"),
    ("nv state", "nev nevapp"),
    ("nh state", "nh"),
    ("nj state", "nj njsuperctappdiv"),
    ("nm state", "nm nmctapp"),
    ("ny state", "ny nyappdiv nyappterm"),
    ("nc state", "nc ncctapp"),
    ("nd state", "nd ndctapp"),
    ("oh state", "ohio ohioctapp"),
    ("ok state", "okla oklacivapp oklacrimapp"),
    ("or state", "or orctapp"),
    ("pa state", "pa pasuperct pacommwct"),
    ("ri state", "ri"),
    ("sc state", "sc scctapp"),
    ("sd state", "sd"),
    ("tn state", "tenn tennctapp tenncrimapp"),
    ("tx state", "tex texcrimapp texapp"),
    ("ut state", "utah utahctapp"),
    ("vt state", "vt"),
    ("va state", "va vactapp"),
    ("wa state", "wash washctapp"),
    ("wv state", "wva"),
    ("wi state", "wis wisctapp"),
    ("wy state", "wyo"),
    ("first circuit", "ca1"),
    ("1st circuit", "ca1"),
    ("second circuit", "ca2"),
    ("2nd circuit", "ca2"),
    ("third circuit", "ca3"),
    ("3rd circuit", "ca3"),
    ("fourth circuit", "ca4"),
    ("4th circuit", "ca4"),
    ("fifth circuit", "ca5"),
    ("5th circuit", "ca5"),
    ("sixth circuit", "ca6"),
    ("6th circuit", "ca6"),
    ("seventh circuit", "ca7"),
    ("7th circuit", "ca7"),
    ("eighth circuit", "ca8"),
    ("8th circuit", "ca8"),
    ("ninth circuit", "ca9"),
    ("9th circuit", "ca9"),
    ("tenth circuit", "ca10"),
    ("10th circuit", "ca10"),
    ("eleventh circuit", "ca11"),
    ("11th circuit", "ca11"),
    ("dc circuit", "cadc"),
    ("d.c. circuit", "cadc"),
    ("federal circuit", "cafc"),
    ("supreme court", "scotus"),
    ("us supreme court", "scotus"),
    ("united states supreme court", "scotus"),
    ("scotus", "scotus"),
    ("federal", "scotus ca1 ca2 ca3 ca4 ca5 ca6 ca7 ca8 ca9 ca10 ca11 cadc cafc"),
    ("all federal", "scotus ca1 ca2 ca3 ca4 ca5 ca6 ca7 ca8 ca9 ca10 ca11 cadc cafc"),
    ("federal appellate", "ca1 ca2 ca3 ca4 ca5 ca6 ca7 ca8 ca9 ca10 ca11 cadc cafc")
  ]

/-- STATE_SUPREME_TO_STATE (src/tools.py:663-677). -/
def STATE_SUPREME_TO_STATE : List (String × String) :=
  [
    ("ala", "alabama"),
    ("alaska", "alaska"),
    ("ariz", "arizona"),
    ("ark", "arkansas"),
    ("cal", "california"),
    ("colo", "colorado"),
    ("conn", "connecticut"),
    ("del", "delaware"),
    ("fla", "florida"),
    ("ga", "georgia"),
    ("haw", "hawaii"),
    ("idaho", "idaho"),
    ("ill", "illinois"),
    ("ind", "indiana"),
    ("iowa", "iowa"),
    ("kan", "kansas"),
    ("ky", "kentucky"),
    ("la", "louisiana"),
    ("me", "maine"),
    ("md", "maryland"),
    ("mass", "massachusetts"),
    ("mich", "michigan"),
    ("minn", "minnesota"),
    ("miss", "mississippi"),
    ("mo", "missouri"),
    ("mont", "montana"),
    ("neb", "nebraska"),
    ("nev", "nevada"),
    ("nh", "new hampshire"),
    ("nj", "new jersey"),
    ("nm", "new mexico"),
    ("ny", "new york"),
    ("nc", "north carolina"),
    ("nd", "north dakota"),
    ("ohio", "ohio"),
    ("okla", "oklahoma"),
    ("or", "oregon"),
    ("pa", "pennsylvania"),
    ("ri", "rhode island"),
    ("sc", "south carolina"),
    ("sd", "south dakota"),
    ("tenn", "tennessee"),
    ("tex", "texas"),
    ("utah", "utah"),
    ("vt", "vermont"),
    ("va", "virginia"),
    ("wash", "washington"),
    ("wva", "west virginia"),
    ("wis", "wisconsin"),
    ("wyo", "wyoming")
  ]

def lookupMapping (k : String) : Option String :=
  (STATE_COURT_MAPPING.find? (fun e => e.1 == k)).map Prod.snd

def lookupSupreme (k : String) : Option String :=
  (STATE_SUPREME_TO_STATE.find? (fun e => e.1 == k)).map Prod.snd

/-- The `jurisdictions.py` module is not among the sources; only its two
exports are used.  Modelled from the spec: `ALL_COURTS` is "a fixed,
immutable registry" mapping court codes to court names, and `search_courts`
is the "fuzzy fallback — token/substring match against the full court-name
registry" returning an ordered code-to-name map.  Both are passed in as
explicit data, and every theorem below holds for all instantiations. -/
structure CourtsDB where
  allCourts : String → Option String
  searchCourts : String → List (String × String)

/-- A string wrapped in single quotes. -/
def quoteS (s : String) : String := String.mk [apos] ++ s ++ String.mk [apos]

/-- Python `str.title()` on lower-case, space-separated text. -/
def capitalizeWord (w : String) : String :=
  match w.toList with
  | [] => ""
  | c :: cs => String.mk (c.toUpper :: cs)

def titleCase (s : String) : String := joinWords ((wordsOf s).map capitalizeWord)

/-- Embeds `re.search(r'state\s+of\s+(\w+(?:\s+\w+)?)', s)` at the word level:
first occurrence, greedy one-or-two-word capture. -/
def findStateOf : List String → Option (List String)
  | [] => none
  | w :: rest =>
    match w :: rest with
    | "state" :: "of" :: x :: y :: _ => some [x, y]
    | "state" :: "of" :: [x] => some [x]
    | _ => findStateOf rest

/-- Embeds `re.search(r'federal\s+courts?\s+in\s+(\w+(?:\s+\w+)?)', s)` at the word
level. -/
def findFederalCourtsIn : List String → Option (List String)
  | [] => none
  | w :: rest =>
    match w :: rest with
    | "federal" :: "courts" :: "in" :: x :: y :: _ => some [x, y]
    | "federal" :: "courts" :: "in" :: [x] => some [x]
    | "federal" :: "court" :: "in" :: x :: y :: _ => some [x, y]
    | "federal" :: "court" :: "in" :: [x] => some [x]
    | _ => findFederalCourtsIn rest

/-- Embeds `re.search(r'(\w+(?:\s+\w+)?)\s+federal\s+courts?', s)` at the word
level: leftmost match, greedy capture backtracking to one word. -/
def findXFederalCourts : List String → Option (List String)
  | [] => none
  | w :: rest =>
    match w :: rest with
    | x :: y :: "federal" :: "courts" :: _ => some [x, y]
    | x :: y :: "federal" :: "court" :: _ => some [x, y]
    | x :: "federal" :: "courts" :: _ => some [x]
    | x :: "federal" :: "court" :: _ => some [x]
    | _ => findXFederalCourts rest

/-- The normalisation pass of `map_jurisdiction_to_codes`
(src/tools.py:707-732): rewrite "state of X" → "X",
"federal courts in X" → "X federal", "X federal courts" → "X federal",
then drop the noise words "court(s)", "the", "in", "of" and collapse
whitespace. -/
def normalizeJurisdiction (jurisdiction_lower : String) : String :=
  let ws := wordsOf jurisdiction_lower
  let ws := match findStateOf ws with
    | some cap => cap
    | none => ws
  let ws := match findFederalCourtsIn ws with
    | some cap => cap ++ ["federal"]
    | none => ws
  let ws := match findXFederalCourts ws with
    | some cap => cap ++ ["federal"]
    | none => ws
  let ws := ws.filter (fun w =>
    !(["courts", "court", "the", "in", "of"].contains w))
  joinWords ws

structure JurisdictionResult where
  valid : Bool
  court_codes : String
  description : String
  suggestion : String
deriving DecidableEq, Repr

/-- Description text: first five court names (falling back to the code when
the registry lacks it) plus "and N more" when truncated
(src/tools.py:741-744 and analogues). -/
def describeCodes (db : CourtsDB) (code_list : List String) : String :=
  let desc := joinWith ", " ((code_list.take 5).map (fun c => (db.allCourts c).getD c))
  if code_list.length > 5 then
    desc ++ " and " ++ toString (code_list.length - 5) ++ " more"
  else desc

/-- Embeds `map_jurisdiction_to_codes` (src/tools.py:680-823): empty input
accepts all courts; then, in strict priority order, exact lookup,
normalised lookup, state-supreme-code expansion, verbatim court codes, and
fuzzy fallback; otherwise invalid. -/
def map_jurisdiction_to_codes (db : CourtsDB) (jurisdiction_input : String) :
    JurisdictionResult :=
  if jurisdiction_input == "" then
    { valid := true, court_codes := "",
      description := "All courts (no jurisdiction filter)", suggestion := "" }
  else
    let jurisdiction_lower := strStrip (strLower jurisdiction_input)
    let normalized := normalizeJurisdiction jurisdiction_lower
    match lookupMapping jurisdiction_lower with
    | some codes =>
      { valid := true, court_codes := codes,
        description := describeCodes db (wordsOf codes), suggestion := "" }
    | none =>
      match
        (if normalized ≠ "" && normalized ≠ jurisdiction_lower then
          lookupMapping normalized else none) with
      | some codes =>
        { valid := true, court_codes := codes,
          description := describeCodes db (wordsOf codes),
          suggestion := "Normalized from " ++ quoteS jurisdiction_input ++
            " to " ++ quoteS normalized }
      | none =>
        match
          (match lookupSupreme jurisdiction_lower with
           | some state_name =>
             (lookupMapping state_name).map (fun codes => (state_name, codes))
           | none => none) with
        | some (state_name, codes) =>
          { valid := true, court_codes := codes,
            description := describeCodes db (wordsOf codes),
            suggestion := "Expanded " ++ quoteS jurisdiction_lower ++
              " to all " ++ titleCase state_name ++ " courts" }
        | none =>
          let input_codes := wordsOf jurisdiction_lower
          if input_codes.all (fun c => (db.allCourts c).isSome) then
            { valid := true, court_codes := jurisdiction_lower,
              description :=
                joinWith ", " (input_codes.map (fun c => (db.allCourts c).getD c)),
              suggestion := "" }
          else
            let fuzzyMatches := db.searchCourts jurisdiction_lower
            if fuzzyMatches ≠ [] then
              let desc := joinWith ", " ((fuzzyMatches.map Prod.snd).take 5)
              { valid := true,
                court_codes := joinWords ((fuzzyMatches.map Prod.fst).take 10),
                description :=
                  if fuzzyMatches.length > 5 then
                    desc ++ " and " ++ toString (fuzzyMatches.length - 5) ++ " more"
                  else desc,
                suggestion := "Found " ++ toString fuzzyMatches.length ++
                  " matching courts" }
            else
              { valid := false, court_codes := "", description := "",
                suggestion := "Could not recognize " ++ quoteS jurisdiction_input ++
                  ". Try state names (e.g., " ++ quoteS "California" ++
                  "), circuit names (e.g., " ++ quoteS "Ninth Circuit" ++
                  "), or court codes (e.g., " ++ quoteS "ca9" ++ ", " ++
                  quoteS "cal" ++ ")." }

/-! ## parse_date_input (src/tools.py:826-929)

`datetime.now()` is passed in as a proleptic-Gregorian day ordinal
(1 = 0001-01-01, as in Python `date.toordinal()`); `timedelta(days = k)`
subtraction is integer subtraction; `strftime("%m/%d/%Y")` is implemented
with the standard civil-from-days conversion.  `datetime` supports years
1..9999 only: `today - timedelta(days = years * 365)` raises
`OverflowError` when the result falls before 0001-01-01, an exception
`parse_date_input` does not catch — modelled as `Except.error`. -/

/-- A Python exception: class name and message. -/
structure Exc where
  excType : String
  msg : String
deriving DecidableEq, Repr

/-- The `OverflowError` raised by out-of-range `datetime` arithmetic. -/
def overflowErr : Exc :=
  { excType := "OverflowError", msg := "date value out of range" }

/-- Days-to-civil-date conversion (proleptic Gregorian), yielding
(year, month, day).  Input is a day ordinal with 1 = 0001-01-01. -/
def civilFromDays (ord : Int) : Int × Int × Int :=
  let z : Int := ord - 719163 + 719468  -- ordinal → days since 1970-01-01 → shift to the 0000-03-01 epoch
  let era : Int := (if z ≥ 0 then z else z - 146096) / 146097
  let doe : Int := z - era * 146097
  let yoe : Int := (doe - doe / 1460 + doe / 36524 - doe / 146096) / 365
  let y : Int := yoe + era * 400
  let doy : Int := doe - (365 * yoe + yoe / 4 - yoe / 100)
  let mp : Int := (5 * doy + 2) / 153
  let d : Int := doy - (153 * mp + 2) / 5 + 1
  let m : Int := mp + (if mp < 10 then 3 else -9)
  (y + (if m ≤ 2 then 1 else 0), m, d)

/-- Zero-pad a number to two digits. -/
def pad2 (n : Int) : String :=
  if n < 10 then "0" ++ toString n else toString n

/-- Embeds `strftime("%m/%d/%Y")` on a day ordinal. -/
def formatDate (ord : Int) : String :=
  match civilFromDays ord with
  | (y, m, d) => pad2 m ++ "/" ++ pad2 d ++ "/" ++ toString y

/-- Read a run of decimal digits as a number. -/
def digitsToNat (ds : List Char) : Nat :=
  ds.foldl (fun acc c => acc * 10 + (c.toNat - 48)) 0

/-- Embeds `re.search(r'(?:last|past)\s+(\d+)\s+years?', s)`: scan for the leftmost
position where "last" or "past" is followed by whitespace, digits,
whitespace and "year".  (The source pattern has no word boundaries.) -/
def findLastYearsAt (cs : List Char) : Option Nat :=
  let tryKw : List Char → Option Nat := fun rest =>
    let ws1 := rest.takeWhile Char.isWhitespace
    if ws1.isEmpty then none
    else
      let r1 := rest.drop ws1.length
      let ds := r1.takeWhile Char.isDigit
      if ds.isEmpty then none
      else
        let r2 := r1.drop ds.length
        let ws2 := r2.takeWhile Char.isWhitespace
        if ws2.isEmpty then none
        else
          let r3 := r2.drop ws2.length
          if prefixOfChars "year".toList r3 then some (digitsToNat ds) else none
  if prefixOfChars "last".toList cs || prefixOfChars "past".toList cs then
    tryKw (cs.drop 4)
  else none

def findLastYears : List Char → Option Nat
  | [] => none
  | c :: cs =>
    match findLastYearsAt (c :: cs) with
    | some n => some n
    | none => findLastYears cs

/-- Embeds `re.search(r'(\d+)\s+(?:last|past)\s+years?', s)` (the reverse word
order "5 last years"). -/
def findYearsLastAt (cs : List Char) : Option Nat :=
  let ds := cs.takeWhile Char.isDigit
  if ds.isEmpty then none
  else
    let r1 := cs.drop ds.length
    let ws1 := r1.takeWhile Char.isWhitespace
    if ws1.isEmpty then none
    else
      let r2 := r1.drop ws1.length
      if prefixOfChars "last".toList r2 || prefixOfChars "past".toList r2 then
        let r3 := r2.drop 4
        let ws2 := r3.takeWhile Char.isWhitespace
        if ws2.isEmpty then none
        else
          if prefixOfChars "year".toList (r3.drop ws2.length) then
            some (digitsToNat ds)
          else none
      else none

def findYearsLast : List Char → Option Nat
  | [] => none
  | c :: cs =>
    match findYearsLastAt (c :: cs) with
    | some n => some n
    | none => findYearsLast cs

/-- The combined "last N years" matcher of src/tools.py:843-846: the direct
word order is tried first, then the reverse one. -/
def lastYearsMatch (cs : List Char) : Option Nat :=
  match findLastYears cs with
  | some n => some n
  | none => findYearsLast cs

/-- A token of exactly four digits (`\d{4}` with `\b` on both sides). -/
def isYear4 (w : String) : Bool :=
  w.length == 4 && w.toList.all Char.isDigit

/-- Generic leftmost-match scanner (`re.search`): try the matcher at every
suffix, left to right. -/
def scanFor {a : Type} (f : List Char → Option a) : List Char → Option a
  | [] => none
  | c :: cs =>
    match f (c :: cs) with
    | some r => some r
    | none => scanFor f cs

/-- Embeds `re.search(r'(\d{4})\s*(?:to|-)\s*(\d{4})', s)` matched at one
position. -/
def yearRangeAt (cs : List Char) : Option (String × String) :=
  let ds := cs.take 4
  if decide (ds.length = 4) && ds.all Char.isDigit then
    let r1 := (cs.drop 4).dropWhile Char.isWhitespace
    let r2opt :=
      if prefixOfChars "to".toList r1 then some (r1.drop 2)
      else if prefixOfChars "-".toList r1 then some (r1.drop 1)
      else none
    match r2opt with
    | some r2 =>
      let r3 := r2.dropWhile Char.isWhitespace
      let es := r3.take 4
      if decide (es.length = 4) && es.all Char.isDigit then
        some (String.mk ds, String.mk es)
      else none
    | none => none
  else none

def findYearRange (cs : List Char) : Option (String × String) :=
  scanFor yearRangeAt cs

/-- Embeds `re.search(r'(?:since|after|from)\s+(\d{4})', s)` matched at one
position. -/
def sinceYearAt (cs : List Char) : Option String :=
  let afterKw :=
    if prefixOfChars "since".toList cs then some (cs.drop 5)
    else if prefixOfChars "after".toList cs then some (cs.drop 5)
    else if prefixOfChars "from".toList cs then some (cs.drop 4)
    else none
  match afterKw with
  | some rest =>
    let ws1 := rest.takeWhile Char.isWhitespace
    if ws1.isEmpty then none
    else
      let ds := (rest.drop ws1.length).take 4
      if decide (ds.length = 4) && ds.all Char.isDigit then some (String.mk ds)
      else none
  | none => none

def findSinceYear (cs : List Char) : Option String := scanFor sinceYearAt cs

/-- Embeds `re.search(r'(?:before|until)\s+(\d{4})$', s)` matched at one position
(anchored at the end of the string). -/
def beforeYearAt (cs : List Char) : Option String :=
  let afterKw :=
    if prefixOfChars "before".toList cs then some (cs.drop 6)
    else if prefixOfChars "until".toList cs then some (cs.drop 5)
    else none
  match afterKw with
  | some rest =>
    let ws1 := rest.takeWhile Char.isWhitespace
    if ws1.isEmpty then none
    else
      let r1 := rest.drop ws1.length
      if decide (r1.length = 4) && r1.all Char.isDigit then some (String.mk r1)
      else none
  | none => none

def findBeforeYear (cs : List Char) : Option String := scanFor beforeYearAt cs

/-- Embeds `re.match(r'^(\d{2}/\d{2}/\d{4})$', s)`. -/
def isMmDdYyyy (s : String) : Bool :=
  match s.toList with
  | [a, b, '/', c, d, '/', e, f, g, h] =>
    [a, b, c, d, e, f, g, h].all Char.isDigit
  | _ => false

/-- Embeds `re.match(r'^(\d{4})-(\d{2})-(\d{2})$', s)`, returning (y, m, d). -/
def matchIsoDate (s : String) : Option (String × String × String) :=
  match s.toList with
  | [a, b, c, d, '-', e, f, '-', g, h] =>
    if [a, b, c, d, e, f, g, h].all Char.isDigit then
      some (String.mk [a, b, c, d], String.mk [e, f], String.mk [g, h])
    else none
  | _ => none

structure DateResult where
  valid : Bool
  filed_after : String
  filed_before : String
  description : String
deriving DecidableEq, Repr

/-- Embeds `parse_date_input` (src/tools.py:826-929).  `today` is the
current day ordinal (in 1..3652059 for any real `datetime.now()`).  Only
the last/past-N-years branch performs `datetime` arithmetic; it raises
`OverflowError` when `today - years*365` falls before ordinal 1
(0001-01-01).  For a valid `today` that condition is exact: the result can
never exceed 9999-12-31, and the astronomically large `years` for which
`timedelta(days=years*365)` itself overflows also satisfy it and raise the
same exception class. -/
def parse_date_input (date_input : String) (today : Int) :
    Except Exc DateResult :=
  if date_input == "" then
    .ok { valid := true, filed_after := "", filed_before := "",
          description := "All time (no date filter)" }
  else
    let date_lower := strStrip (strLower date_input)
    match lastYearsMatch date_lower.toList with
    | some years =>
      let start_date : Int := today - years * 365
      if start_date < 1 then .error overflowErr
      else
        .ok { valid := true, filed_after := formatDate start_date,
              filed_before := formatDate today,
              description := "Last " ++ toString years ++ " year(s)" }
    | none =>
      match findYearRange date_lower.toList with
      | some (sy, ey) =>
        .ok { valid := true, filed_after := "01/01/" ++ sy,
              filed_before := "12/31/" ++ ey, description := sy ++ " to " ++ ey }
      | none =>
        match findSinceYear date_lower.toList with
        | some y =>
          .ok { valid := true, filed_after := "01/01/" ++ y,
                filed_before := formatDate today, description := "Since " ++ y }
        | none =>
          match findBeforeYear date_lower.toList with
          | some y =>
            .ok { valid := true, filed_after := "",
                  filed_before := "12/31/" ++ y, description := "Before " ++ y }
          | none =>
            if isYear4 date_lower then
              .ok { valid := true, filed_after := "01/01/" ++ date_lower,
                    filed_before := "12/31/" ++ date_lower,
                    description := "Year " ++ date_lower }
            else if isMmDdYyyy date_lower then
              .ok { valid := true, filed_after := date_lower, filed_before := "",
                    description := "After " ++ date_lower }
            else
              match matchIsoDate date_lower with
              | some (y, m, d) =>
                .ok { valid := true, filed_after := m ++ "/" ++ d ++ "/" ++ y,
                      filed_before := "",
                      description := "After " ++ m ++ "/" ++ d ++ "/" ++ y }
              | none =>
                .ok { valid := false, filed_after := "", filed_before := "",
                      description := "Could not parse date: " ++
                        quoteS date_input ++ ". Try " ++ quoteS "last 3 years" ++
                        ", " ++ quoteS "2020 to 2023" ++ ", or " ++
                        quoteS "since 2020" ++ "." }

/-! ## execute_search_case_law (src/tools.py:1137-1418)

The CourtListener client is a function from search parameters to either an
exception or a response; `None` is modelled by `Option`.  The
`reranker.CohereReranker` import-and-construct of the inner `try` blocks is
a value of `Except Exc Reranker` (an exception while importing,
constructing or probing the reranker is `Except.error`); a failing
`rerank` call is an `Except.error` of the `rerank` field. -/

/-- A case record; only the `_search_source` tag written by the
orchestrator is distinguished, the rest of the record is an opaque
identifier. -/
structure Case where
  caseId : Nat
  searchSource : Option String := none
deriving DecidableEq, Repr

/-- Embeds `case["_search_source"] = src`. -/
def setSource (src : String) (c : Case) : Case := { c with searchSource := some src }

/-- A CourtListener response: `results` list and `_api_url`. -/
structure SearchResponse where
  results : List Case
  apiUrl : String := ""
deriving DecidableEq, Repr

/-- The keyword arguments of `courtlistener_client.search`. -/
structure SearchParams where
  query : String
  search_type : String
  court : String
  filed_after : String
  filed_before : String
  status : String
  order_by : String
  cited_gt : Option Int
  page_size : Nat
  cursor : Option String
deriving DecidableEq, Repr

deriving instance DecidableEq for Except

abbrev Client := SearchParams → Except Exc SearchResponse

/-- The Cohere reranker adapter (`reranker.py` is external):
`is_available()` probe and `rerank` call. -/
structure Reranker where
  available : Bool
  rerank : String → List Case → Nat → Except Exc (List Case)

/-- The tool-call argument dictionary; absent keys are `none`. -/
structure Args where
  query : Option String := none
  extracted_query : Option String := none
  keyword_query : Option String := none
  search_type : Option String := none
  reasoning : Option String := none
  court : Option String := none
  jurisdiction : Option String := none
  filed_after : Option String := none
  filed_before : Option String := none
  date_range : Option String := none
  status : Option String := none
  order_by : Option String := none
  cited_gt : Option Int := none
  page_size : Option Nat := none   -- accepted but never read by the source
  cursor : Option String := none
deriving Repr

/-- The `_metadata` dictionary (src/tools.py:1228-1244, enriched at
1342-1347 and 1326/1383). -/
structure Metadata where
  semantic_query : String
  keyword_query : String
  search_type : String
  court : String
  filed_after : String
  filed_before : String
  status : String
  order_by : String
  cited_gt : Option Int
  page_size_per_search : Nat
  keyword_top_n : Nat
  semantic_top_n : Nat
  reasoning : String
  semantic_reranked : Bool
  dual_search : Bool
  keyword_results_count : Option Nat := none
  semantic_results_count : Option Nat := none
  keyword_shown : Option Nat := none
  semantic_shown : Option Nat := none
  keyword_api_url : Option String := none
  semantic_api_url : Option String := none
deriving DecidableEq, Repr

/-- The dictionary returned by `execute_search_case_law`; keys that are
absent on some return paths are `Option`s. -/
structure Outcome where
  success : Bool
  error : Option String := none
  error_type : Option String := none
  results : List Case
  count : Nat
  metadata : Metadata
  pagination_has_more : Option Bool := none
  api_url : Option String := none
  search_type_label : Option String := none
deriving DecidableEq, Repr

def page_size_per_search : Nat := 20
def keyword_top_n : Nat := 5
def semantic_top_n : Nat := 5

/-- Embeds `common_words` of the keyword auto-generation (src/tools.py:1189). -/
def commonWords : List String :=
  ["this", "that", "with", "from", "have", "been", "were", "their", "what",
   "when", "where", "which", "while", "about", "after", "before", "because",
   "through", "during", "between"]

/-- Maximal `\w`-runs of a character list. -/
def wordRunsAux : List Char → List Char → List (List Char)
  | [], acc => if acc.isEmpty then [] else [acc.reverse]
  | c :: cs, acc =>
    if isWordChar c then wordRunsAux cs (c :: acc)
    else if acc.isEmpty then wordRunsAux cs []
    else acc.reverse :: wordRunsAux cs []

/-- Embeds `re.findall(r'\b[a-z]{4,}\b', query.lower())`: the maximal `\w`-runs
that consist solely of lower-case letters and have length at least 4. -/
def autoKeywordTerms (query : String) : List String :=
  let runs := wordRunsAux (strLower query).toList []
  let words := (runs.filter (fun r => decide (4 ≤ r.length) && r.all Char.isLower)).map
    String.mk
  (words.filter (fun w => !commonWords.contains w)).take 7

/-- Keyword-query auto-generation for dual search (src/tools.py:1185-1194). -/
def autoKeywordQuery (query : String) : String :=
  let key_terms := autoKeywordTerms query
  if key_terms ≠ [] then joinWith " AND " key_terms else query

/-- All request preprocessing of `execute_search_case_law` up to the `try`
block (src/tools.py:1152-1225): schema fallbacks, Boolean-operator
handling, forced dual search, keyword auto-generation, court and date
resolution. -/
structure Prepared where
  original_query : String
  query : String
  keyword_query : String
  search_type : String
  court : String
  filed_after : String
  filed_before : String
  status : String
  order_by : String
  cited_gt : Option Int
  cursor : Option String
  reasoning : String
deriving DecidableEq, Repr

def prepare (db : CourtsDB) (a : Args) (today : Int) : Prepared :=
  let original_query := a.query.getD (a.extracted_query.getD "")
  let keyword_query0 := a.keyword_query.getD ""
  let requested := a.search_type.getD "semantic"
  let reasoning := a.reasoning.getD ""
  let hasBool := has_boolean_operators original_query
  let keyword_query1 :=
    if hasBool then (if keyword_query0 == "" then original_query else keyword_query0)
    else keyword_query0
  let query :=
    if hasBool then convert_boolean_to_natural_language original_query
    else original_query
  let explicit_single :=
    (requested == "keyword" || requested == "semantic") &&
    containsSubstr (strLower reasoning) "only"
  let search_type := if explicit_single then requested else "both"
  let keyword_query :=
    if explicit_single then keyword_query1
    else if keyword_query1 == "" then autoKeywordQuery query else keyword_query1
  let court0 := a.court.getD ""
  let court :=
    if court0 ≠ "" then
      let jr := map_jurisdiction_to_codes db court0
      if jr.court_codes ≠ "" then jr.court_codes else court0
    else
      match a.jurisdiction with
      | some j =>
        if j ≠ "" then (map_jurisdiction_to_codes db j).court_codes else ""
      | none => ""
  let filed_after0 := a.filed_after.getD ""
  let filed_before0 := a.filed_before.getD ""
  -- Legacy date_range path (src/tools.py:1212-1216).  In the source this
  -- `parse_date_input` call sits *before* the `try` block, so an
  -- `OverflowError` raised here escapes `execute_search_case_law` uncaught;
  -- this total embedding maps that raising corner (an extreme "last N
  -- years" date_range) to "no date filter", and no orchestrator claim
  -- constrains it.
  let fa_fb :=
    if filed_after0 == "" && filed_before0 == "" && (a.date_range.getD "") ≠ "" then
      match parse_date_input (a.date_range.getD "") today with
      | .ok dr => (dr.filed_after, dr.filed_before)
      | .error _ => ("", "")
    else (filed_after0, filed_before0)
  { original_query := original_query, query := query,
    keyword_query := keyword_query, search_type := search_type,
    court := court, filed_after := fa_fb.1, filed_before := fa_fb.2,
    status := a.status.getD "published",
    order_by := a.order_by.getD "score desc",
    cited_gt := a.cited_gt, cursor := a.cursor, reasoning := reasoning }

def initialMetadata (p : Prepared) : Metadata :=
  { semantic_query := p.query, keyword_query := p.keyword_query,
    search_type := p.search_type, court := p.court,
    filed_after := p.filed_after, filed_before := p.filed_before,
    status := p.status, order_by := p.order_by, cited_gt := p.cited_gt,
    page_size_per_search := page_size_per_search,
    keyword_top_n := keyword_top_n, semantic_top_n := semantic_top_n,
    reasoning := p.reasoning, semantic_reranked := false,
    dual_search := p.search_type == "both" }

def baseParams (p : Prepared) (q st : String) : SearchParams :=
  { query := q, search_type := st, court := p.court,
    filed_after := p.filed_after, filed_before := p.filed_before,
    status := p.status, order_by := p.order_by, cited_gt := p.cited_gt,
    page_size := page_size_per_search, cursor := p.cursor }

/-- The keyword query used by the dual branch, after the fall-back of
src/tools.py:1261-1263. -/
def dualKeywordQueryUsed (p : Prepared) : String :=
  if p.keyword_query == "" then p.query else p.keyword_query

def dualKeywordParams (p : Prepared) : SearchParams :=
  baseParams p (dualKeywordQueryUsed p) "keyword"

def dualSemanticParams (p : Prepared) : SearchParams :=
  baseParams p p.query "semantic"

def singleActualType (p : Prepared) : String :=
  if p.search_type == "semantic" then "semantic" else "keyword"

def singleActualQuery (p : Prepared) : String :=
  if p.search_type == "semantic" then p.query
  else if p.keyword_query ≠ "" then p.keyword_query else p.query

def singleParams (p : Prepared) : SearchParams :=
  baseParams p (singleActualQuery p) (singleActualType p)

/-- The search-API calls a request gives rise to: two branch calls in dual
mode, one otherwise (src/tools.py:1265-1299 and 1354-1365). -/
def searchCallParams (p : Prepared) : List SearchParams :=
  if p.search_type == "both" then [dualKeywordParams p, dualSemanticParams p]
  else [singleParams p]

/-- Semantic-branch selection of the dual path (src/tools.py:1311-1333):
rerank when the reranker imports, is available and there are candidates;
on unavailability or any exception, keep the upstream order truncated to
`semantic_top_n`.  The second component is the `semantic_reranked` flag. -/
def semanticSelectDual (rr : Except Exc Reranker) (query : String)
    (semantic_cases : List Case) : List Case × Bool :=
  match rr with
  | .error _ => (semantic_cases.take semantic_top_n, false)
  | .ok r =>
    if r.available && decide (0 < semantic_cases.length) then
      match r.rerank query semantic_cases semantic_top_n with
      | .ok l => (l, true)
      | .error _ => (semantic_cases.take semantic_top_n, false)
    else (semantic_cases.take semantic_top_n, false)

/-- Semantic selection of the single-search path (src/tools.py:1371-1389). -/
def semanticSelectSingle (rr : Except Exc Reranker) (query : String)
    (all_cases : List Case) : List Case × Bool :=
  match rr with
  | .error _ => (all_cases.take semantic_top_n, false)
  | .ok r =>
    if r.available then
      match r.rerank query all_cases semantic_top_n with
      | .ok l => (l, true)
      | .error _ => (all_cases.take semantic_top_n, false)
    else (all_cases.take semantic_top_n, false)

structure DualOutput where
  final_results : List Case
  semantic_reranked : Bool
  keyword_results_count : Nat
  semantic_results_count : Nat
  keyword_shown : Nat
  semantic_shown : Nat
  keyword_api_url : String
  semantic_api_url : String
deriving DecidableEq, Repr

/-- The dual-search body (src/tools.py:1259-1347).  The keyword future is
joined first, so a keyword-branch exception wins when both branches
raise. -/
def runDualSearch (cl : Client) (rr : Except Exc Reranker) (p : Prepared) :
    Except Exc DualOutput :=
  match cl (dualKeywordParams p) with
  | .error e => .error e
  | .ok kwResp =>
    match cl (dualSemanticParams p) with
    | .error e => .error e
    | .ok semResp =>
      let keyword_cases := kwResp.results
      let semantic_cases := semResp.results
      let keyword_top_5 := (keyword_cases.take keyword_top_n).map (setSource "keyword")
      let sel := semanticSelectDual rr p.query semantic_cases
      let semantic_top_5 := sel.1.map (setSource "semantic")
      .ok { final_results := keyword_top_5 ++ semantic_top_5,
            semantic_reranked := sel.2,
            keyword_results_count := keyword_cases.length,
            semantic_results_count := semantic_cases.length,
            keyword_shown := keyword_top_5.length,
            semantic_shown := semantic_top_5.length,
            keyword_api_url := kwResp.apiUrl,
            semantic_api_url := semResp.apiUrl }

/-- The single-search body (src/tools.py:1349-1397). -/
def runSingleSearch (cl : Client) (rr : Except Exc Reranker) (p : Prepared) :
    Except Exc (List Case × Bool) :=
  match cl (singleParams p) with
  | .error e => .error e
  | .ok resp =>
    let all_cases := resp.results
    if p.search_type == "semantic" && decide (semantic_top_n < all_cases.length) then
      let sel := semanticSelectSingle rr p.query all_cases
      .ok (sel.1.map (setSource (singleActualType p)), sel.2)
    else
      let top_n := if p.search_type == "keyword" then keyword_top_n else semantic_top_n
      .ok ((all_cases.take top_n).map (setSource (singleActualType p)), false)

/-- The `except Exception` handler of src/tools.py:1409-1418. -/
def excFailure (e : Exc) (md : Metadata) : Outcome :=
  { success := false, error := some e.msg, error_type := some e.excType,
    results := [], count := 0, metadata := md }

/-- Embeds `execute_search_case_law` (src/tools.py:1137-1418). -/
def execute_search_case_law (db : CourtsDB) (a : Args)
    (client : Option Client) (rr : Except Exc Reranker) (today : Int) : Outcome :=
  let p := prepare db a today
  let md := initialMetadata p
  match client with
  | none =>
    { success := false, error := some "Search client not available",
      results := [], count := 0, metadata := md }
  | some cl =>
    if p.search_type == "both" then
      match runDualSearch cl rr p with
      | .error e => excFailure e md
      | .ok d =>
        { success := true, count := d.final_results.length,
          results := d.final_results,
          metadata := { md with
                        semantic_reranked := d.semantic_reranked,
                        keyword_results_count := some d.keyword_results_count,
                        semantic_results_count := some d.semantic_results_count,
                        keyword_shown := some d.keyword_shown,
                        semantic_shown := some d.semantic_shown,
                        keyword_api_url := some d.keyword_api_url,
                        semantic_api_url := some d.semantic_api_url },
          pagination_has_more := some false,
          api_url := some ("Dual search: keyword=" ++ dualKeywordQueryUsed p ++
            ", semantic=" ++ p.query),
          search_type_label := some "Dual (Keyword + Semantic)" }
    else
      match runSingleSearch cl rr p with
      | .error e => excFailure e md
      | .ok fr =>
        { success := true, count := fr.1.length, results := fr.1,
          metadata := { md with semantic_reranked := fr.2 },
          pagination_has_more := some false,
          api_url := some "",
          search_type_label :=
            some (if p.search_type == "semantic" then "Semantic" else "Keyword") }

/-! ## Supporting data for the theorems -/

def trivialDb : CourtsDB := { allCourts := fun _ => none, searchCourts := fun _ => [] }

/-- The fifty state names that carry bare, " state" and " federal" entries
in STATE_COURT_MAPPING. -/
def supportedStates : List String :=
  ["alabama", "alaska", "arizona", "arkansas", "california", "colorado",
   "connecticut", "delaware", "florida", "georgia", "hawaii", "idaho",
   "illinois", "indiana", "iowa", "kansas", "kentucky", "louisiana", "maine",
   "maryland", "massachusetts", "michigan", "minnesota", "mississippi",
   "missouri", "montana", "nebraska", "nevada", "new hampshire",
   "new jersey", "new mexico", "new york", "north carolina", "north dakota",
   "ohio", "oklahoma", "oregon", "pennsylvania", "rhode island",
   "south carolina", "south dakota", "tennessee", "texas", "utah", "vermont",
   "virginia", "washington", "west virginia", "wisconsin", "wyoming"]

/-- The set of codes a jurisdiction phrase resolves to. -/
def codeSet (db : CourtsDB) (phrase : String) : List String :=
  wordsOf (map_jurisdiction_to_codes db phrase).court_codes

/-- Table-level superset/disjointness check for one state. -/
def stateTableOk (s : String) : Bool :=
  match lookupMapping s, lookupMapping (s ++ " state"),
        lookupMapping (s ++ " federal") with
  | some bare, some st, some fed =>
    ((wordsOf st).all (fun c => (wordsOf bare).contains c)) &&
    ((wordsOf fed).all (fun c => (wordsOf bare).contains c)) &&
    (s == "nebraska" ||
      (wordsOf st).all (fun c => !((wordsOf fed).contains c)))
  | _, _, _ => false

/-- Concrete data for the orchestrator witnesses. -/
def witArgs : Args :=
  { query := some "negligence claims dispute", search_type := some "both" }

def witKwResp : SearchResponse :=
  { results := [{ caseId := 1 }, { caseId := 2 }, { caseId := 3 },
                { caseId := 4 }, { caseId := 5 }, { caseId := 6 },
                { caseId := 7 }] }

def witSemResp : SearchResponse :=
  { results := [{ caseId := 11 }, { caseId := 12 }, { caseId := 13 }] }

def witClient : Client := fun sp =>
  if sp.search_type == "keyword" then .ok witKwResp else .ok witSemResp

def witRr : Except Exc Reranker := .error { excType := "ImportError", msg := "no module named cohere" }

/-- The exception surfaced by the branch calls, mirroring the join order of
the source (keyword future first). -/
def firstBranchError (cl : Client) (p : Prepared) : Option Exc :=
  if p.search_type == "both" then
    match cl (dualKeywordParams p) with
    | .error e => some e
    | .ok _ =>
      match cl (dualSemanticParams p) with
      | .error e => some e
      | .ok _ => none
  else
    match cl (singleParams p) with
    | .error e => some e
    | .ok _ => none

/-- A concrete branch exception and an always-raising client. -/
def connErr : Exc := { excType := "ConnectionError", msg := "connection refused" }

def failClient : Client := fun _ => .error connErr

/-- A request that explicitly supplies a pagination cursor and page size. -/
def witArgsCursor : Args :=
  { query := some "negligence claims dispute", search_type := some "both",
    cursor := some "next-page-token", page_size := some 15 }

/-- The dual output for `witArgsCursor` against `witClient` with the
reranker failing to import. -/
def witDual : DualOutput :=
  { final_results :=
      [{ caseId := 1, searchSource := some "keyword" },
       { caseId := 2, searchSource := some "keyword" },
       { caseId := 3, searchSource := some "keyword" },
       { caseId := 4, searchSource := some "keyword" },
       { caseId := 5, searchSource := some "keyword" },
       { caseId := 11, searchSource := some "semantic" },
       { caseId := 12, searchSource := some "semantic" },
       { caseId := 13, searchSource := some "semantic" }],
    semantic_reranked := false,
    keyword_results_count := 7, semantic_results_count := 3,
    keyword_shown := 5, semantic_shown := 3,
    keyword_api_url := "", semantic_api_url := "" }

/-- The arguments of the **C5** counterexample: an explicit
`search_type = "keyword"` request whose reasoning does not say "only". -/
def c5Args : Args := { query := some "negligence", search_type := some "keyword" }

/-- The arguments of the **C5** witness: explicit "keyword only" request. -/
def c5WitArgs : Args :=
  { query := some "negligence", search_type := some "keyword",
    reasoning := some "user asked for keyword search only" }

/-- Specification-side predicate: the *lower-case* word `w` occurs
literally at index `i` of `cs`, delimited by word boundaries. -/
def lowerWordAt (cs : List Char) (i : Nat) (w : List Char) : Bool :=
  ((cs.drop i).take w.length == w) &&
  (i == 0 || !isWordChar (cs.getD (i - 1) ' ')) &&
  (decide (cs.length ≤ i + w.length) || !isWordChar (cs.getD (i + w.length) ' '))

/-! ## Claim theorems -/

/-- Claim C7 — For every input string in which the operator-detection regex of
the source finds nothing (no case-insensitive whole-word `AND`/`OR`/`NOT`
and no `&`/`%` anywhere — "already-natural" text),
`convert_boolean_to_natural_language` returns the string unchanged. -/
theorem convert_noop_on_natural (q : String)
    (h : has_boolean_operators q = false) :
    convert_boolean_to_natural_language q = q := by
  unfold convert_boolean_to_natural_language
  simp [h]

/-- Witness for **C7** at a concrete natural-language query. -/
theorem convert_noop_on_natural_witness :
    has_boolean_operators "wrongful termination damages" = false ∧
    convert_boolean_to_natural_language "wrongful termination damages" =
      "wrongful termination damages" :=
  ⟨by decide, convert_noop_on_natural "wrongful termination damages" (by decide)⟩

/-- Claim C6, counterexample — the non-empty input "cases" produces an empty
query: the noise pattern `\bcases?\b` erases it, and the too-short fallback
(which strips `find|me|need|looking|for|search|cases?|about` from the
original) erases it again. -/
theorem extract_empty_on_cases :
    "cases" ≠ "" ∧ (extract_search_query "cases").query = "" :=
  ⟨by decide, by decide⟩

/-- Claim C6, amended — for every non-empty input the returned query is
non-empty *unless* stripping the fallback noise words from the lower-cased
input leaves nothing (as happens for "cases"). -/
theorem extract_query_nonempty_unless_noise (s : String) (uk : Bool)
    (h : s ≠ "") :
    (extract_search_query s uk).query ≠ "" ∨
    fallbackCleaned (strStrip (strLower s)) = "" := by
  have hne : ¬ ((s == "") = true) := by simp [h]
  have hq : (extract_search_query s uk).query =
      (if (extractPipeline (strStrip (strLower s)) uk == "" ||
            decide ((extractPipeline (strStrip (strLower s)) uk).length < 3)) = true
       then fallbackCleaned (strStrip (strLower s))
       else extractPipeline (strStrip (strLower s)) uk) := by
    unfold extract_search_query
    rw [if_neg hne]
  rw [hq]
  by_cases hc : (extractPipeline (strStrip (strLower s)) uk == "" ||
      decide ((extractPipeline (strStrip (strLower s)) uk).length < 3)) = true
  · rw [if_pos hc]
    by_cases hf : fallbackCleaned (strStrip (strLower s)) = ""
    · exact Or.inr hf
    · exact Or.inl hf
  · rw [if_neg hc]
    refine Or.inl (fun h0 => hc ?_)
    simp [h0]

/-- Witness for **C6** (amended) at the concrete input "cases". -/
theorem extract_query_nonempty_unless_noise_witness :
    "cases" ≠ "" ∧
    ((extract_search_query "cases" false).query ≠ "" ∨
      fallbackCleaned (strStrip (strLower "cases")) = "") :=
  ⟨by decide, extract_query_nonempty_unless_noise "cases" false (by decide)⟩

/-- Claim C8, counterexample — the claim fails as stated: "last 2100
years" matches the pattern with N = 2100, yet with today = 2026-10-12
(ordinal 739901) the source computes `today - timedelta(days=2100*365)`,
which falls before year 1, so `datetime` raises an uncaught
`OverflowError` instead of returning `valid = true`. -/
theorem parse_last_years_overflow :
    lastYearsMatch (strStrip (strLower "last 2100 years")).toList = some 2100 ∧
    parse_date_input "last 2100 years" 739901 = .error overflowErr :=
  ⟨by decide, by decide⟩

/-- Claim C8, amended — for every date phrase in which the source's
`last/past N years` matcher (either word order) finds `N`, *provided
`today - N*365` days does not fall before 0001-01-01*, `parse_date_input`
returns `valid = true`, `filed_after = strftime(today - N*365 days)`
(exactly `N*365` days, hence within the ±1-day tolerance of the spec) and
`filed_before = today`; for larger `N` the call raises `OverflowError`. -/
theorem parse_last_years (s : String) (today : Int) (n : Nat)
    (h : lastYearsMatch (strStrip (strLower s)).toList = some n)
    (hrange : 1 ≤ today - n * 365) :
    parse_date_input s today =
      .ok { valid := true, filed_after := formatDate (today - n * 365),
            filed_before := formatDate today,
            description := "Last " ++ toString n ++ " year(s)" } := by
  have hne : ¬ ((s == "") = true) := by
    intro hb
    have hs : s = "" := by simpa using hb
    subst hs
    have : lastYearsMatch (strStrip (strLower "")).toList = none := by decide
    rw [this] at h
    cases h
  have hlt : ¬ (today - (n : Int) * 365 < 1) := by omega
  unfold parse_date_input
  rw [if_neg hne]
  simp only [h]
  rw [if_neg hlt]

/-- Witness for C8 (amended) at "last 5 years" with today = 2026-10-12
(ordinal 739901). -/
theorem parse_last_years_witness :
    lastYearsMatch (strStrip (strLower "last 5 years")).toList = some 5 ∧
    (1 : Int) ≤ 739901 - 5 * 365 ∧
    parse_date_input "last 5 years" 739901 =
      .ok { valid := true, filed_after := formatDate (739901 - 5 * 365),
            filed_before := formatDate 739901,
            description := "Last " ++ toString 5 ++ " year(s)" } :=
  ⟨by decide, by decide,
    parse_last_years "last 5 years" 739901 5 (by decide) (by decide)⟩

/-! ## C3: state registry superset / disjointness -/

/-- For a phrase whose lower-cased, stripped form is a registry key,
`map_jurisdiction_to_codes` returns exactly the registry entry (priority
step 1), for every courts database. -/
theorem mapping_key_court_codes (db : CourtsDB) (s codes : String)
    (hkey : lookupMapping (strStrip (strLower s)) = some codes) :
    (map_jurisdiction_to_codes db s).court_codes = codes := by
  have hne : ¬ ((s == "") = true) := by
    intro hb
    have hs : s = "" := by simpa using hb
    subst hs
    have h0 : lookupMapping (strStrip (strLower "")) = none := by decide
    rw [h0] at hkey
    cases hkey
  unfold map_jurisdiction_to_codes
  rw [if_neg hne]
  simp only [hkey]

/-- Registry keys are already lower-case and stripped. -/
theorem supported_states_clean :
    supportedStates.all (fun s =>
      (strStrip (strLower s) == s) &&
      (strStrip (strLower (s ++ " state")) == s ++ " state") &&
      (strStrip (strLower (s ++ " federal")) == s ++ " federal")) = true := by
  decide

theorem supported_states_table_ok : supportedStates.all stateTableOk = true := by
  decide

/-- Claim C3, counterexample — the claimed state/federal disjointness fails
for Nebraska: the code `neb` (Nebraska Supreme Court, also used as the
Nebraska bankruptcy code in the table) appears in both
codes("nebraska state") and codes("nebraska federal"). -/
theorem nebraska_overlap_counterexample :
    "nebraska" ∈ supportedStates ∧
    "neb" ∈ codeSet trivialDb "nebraska state" ∧
    "neb" ∈ codeSet trivialDb "nebraska federal" :=
  ⟨by decide, by decide, by decide⟩

/-- Claim C3, amended — for every supported state, codes("s state") and
codes("s federal") are both subsets of codes("s"); the state/federal code
sets are disjoint for every state except Nebraska (where the code `neb`
appears on both sides). -/
theorem state_codes_superset_and_disjoint (db : CourtsDB) (s : String)
    (hs : s ∈ supportedStates) :
    (∀ c, c ∈ codeSet db (s ++ " state") → c ∈ codeSet db s) ∧
    (∀ c, c ∈ codeSet db (s ++ " federal") → c ∈ codeSet db s) ∧
    (s ≠ "nebraska" →
      ∀ c, c ∈ codeSet db (s ++ " state") → c ∉ codeSet db (s ++ " federal")) := by
  have hclean := (List.all_eq_true.mp supported_states_clean) s hs
  have hok := (List.all_eq_true.mp supported_states_table_ok) s hs
  obtain ⟨⟨hc1, hc2⟩, hc3⟩ : (strStrip (strLower s) = s ∧
      strStrip (strLower (s ++ " state")) = s ++ " state") ∧
      strStrip (strLower (s ++ " federal")) = s ++ " federal" := by
    simpa [Bool.and_eq_true] using hclean
  unfold stateTableOk at hok
  cases hbare : lookupMapping s with
  | none => rw [hbare] at hok; cases hok
  | some bare =>
  cases hst : lookupMapping (s ++ " state") with
  | none => rw [hbare, hst] at hok; cases hok
  | some st =>
  cases hfed : lookupMapping (s ++ " federal") with
  | none => rw [hbare, hst, hfed] at hok; cases hok
  | some fed =>
  rw [hbare, hst, hfed] at hok
  have e1 : (map_jurisdiction_to_codes db s).court_codes = bare :=
    mapping_key_court_codes db s bare (by rw [hc1, hbare])
  have e2 : (map_jurisdiction_to_codes db (s ++ " state")).court_codes = st :=
    mapping_key_court_codes db (s ++ " state") st (by rw [hc2, hst])
  have e3 : (map_jurisdiction_to_codes db (s ++ " federal")).court_codes = fed :=
    mapping_key_court_codes db (s ++ " federal") fed (by rw [hc3, hfed])
  obtain ⟨⟨h1, h2⟩, h3⟩ :
      ((∀ x ∈ wordsOf st, x ∈ wordsOf bare) ∧
        ∀ x ∈ wordsOf fed, x ∈ wordsOf bare) ∧
      (s = "nebraska" ∨ ∀ x ∈ wordsOf st, x ∉ wordsOf fed) := by
    simpa using hok
  refine ⟨?_, ?_, ?_⟩
  · intro c hcmem
    have hm : c ∈ wordsOf st := by simpa [codeSet, e2] using hcmem
    simpa [codeSet, e1] using h1 c hm
  · intro c hcmem
    have hm : c ∈ wordsOf fed := by simpa [codeSet, e3] using hcmem
    simpa [codeSet, e1] using h2 c hm
  · intro hne c hcmem hcmem2
    have hm : c ∈ wordsOf st := by simpa [codeSet, e2] using hcmem
    have hm2 : c ∈ wordsOf fed := by simpa [codeSet, e3] using hcmem2
    rcases h3 with h | h
    · exact hne h
    · exact h c hm hm2

/-- Witness for **C3** (amended) at the state "texas". -/
theorem state_codes_superset_and_disjoint_witness :
    "texas" ∈ supportedStates ∧
    ((∀ c, c ∈ codeSet trivialDb "texas state" → c ∈ codeSet trivialDb "texas") ∧
     (∀ c, c ∈ codeSet trivialDb "texas federal" → c ∈ codeSet trivialDb "texas") ∧
     ("texas" ≠ "nebraska" →
       ∀ c, c ∈ codeSet trivialDb "texas state" →
         c ∉ codeSet trivialDb "texas federal")) :=
  ⟨by decide, state_codes_superset_and_disjoint trivialDb "texas" (by decide)⟩

/-! ## Orchestrator helper lemmas -/

theorem runDualSearch_ok (cl : Client) (rr : Except Exc Reranker) (p : Prepared)
    (kwResp semResp : SearchResponse)
    (hk : cl (dualKeywordParams p) = .ok kwResp)
    (hs : cl (dualSemanticParams p) = .ok semResp) :
    runDualSearch cl rr p = .ok {
      final_results :=
        ((kwResp.results.take keyword_top_n).map (setSource "keyword")) ++
        ((semanticSelectDual rr p.query semResp.results).1.map
          (setSource "semantic")),
      semantic_reranked := (semanticSelectDual rr p.query semResp.results).2,
      keyword_results_count := kwResp.results.length,
      semantic_results_count := semResp.results.length,
      keyword_shown :=
        ((kwResp.results.take keyword_top_n).map (setSource "keyword")).length,
      semantic_shown :=
        ((semanticSelectDual rr p.query semResp.results).1.map
          (setSource "semantic")).length,
      keyword_api_url := kwResp.apiUrl,
      semantic_api_url := semResp.apiUrl } := by
  unfold runDualSearch
  rw [hk, hs]

theorem execute_dual_ok (db : CourtsDB) (a : Args) (cl : Client)
    (rr : Except Exc Reranker) (today : Int) (d : DualOutput)
    (hboth : ((prepare db a today).search_type == "both") = true)
    (hrun : runDualSearch cl rr (prepare db a today) = .ok d) :
    execute_search_case_law db a (some cl) rr today =
      { success := true, count := d.final_results.length,
        results := d.final_results,
        metadata := { initialMetadata (prepare db a today) with
                      semantic_reranked := d.semantic_reranked,
                      keyword_results_count := some d.keyword_results_count,
                      semantic_results_count := some d.semantic_results_count,
                      keyword_shown := some d.keyword_shown,
                      semantic_shown := some d.semantic_shown,
                      keyword_api_url := some d.keyword_api_url,
                      semantic_api_url := some d.semantic_api_url },
        pagination_has_more := some false,
        api_url := some ("Dual search: keyword=" ++
          dualKeywordQueryUsed (prepare db a today) ++ ", semantic=" ++
          (prepare db a today).query),
        search_type_label := some "Dual (Keyword + Semantic)" } := by
  unfold execute_search_case_law
  simp only [hboth, if_true, hrun]

theorem semanticSelectDual_len (rr : Except Exc Reranker) (q : String)
    (cs : List Case)
    (hcontract : ∀ r l, rr = .ok r →
      r.rerank q cs semantic_top_n = .ok l → l.length ≤ semantic_top_n) :
    (semanticSelectDual rr q cs).1.length ≤ semantic_top_n := by
  cases rr with
  | error e =>
    simp only [semanticSelectDual]
    exact List.length_take_le _ _
  | ok r =>
    simp only [semanticSelectDual]
    by_cases hcond : (r.available && decide (0 < cs.length)) = true
    · rw [if_pos hcond]
      cases hre : r.rerank q cs semantic_top_n with
      | ok l => exact hcontract r l rfl hre
      | error e => exact List.length_take_le _ _
    · rw [if_neg hcond]
      exact List.length_take_le _ _

theorem semanticSelectDual_fallback (rr : Except Exc Reranker) (q : String)
    (cs : List Case)
    (hfb : (∃ e, rr = .error e) ∨
      ∃ r, rr = .ok r ∧ (r.available = false ∨
        ∃ e, r.rerank q cs semantic_top_n = .error e)) :
    semanticSelectDual rr q cs = (cs.take semantic_top_n, false) := by
  rcases hfb with ⟨e, rfl⟩ | ⟨r, rfl, hcase⟩
  · rfl
  · rcases hcase with hav | ⟨e, hre⟩
    · simp [semanticSelectDual, hav]
    · simp only [semanticSelectDual]
      by_cases hcond : (r.available && decide (0 < cs.length)) = true
      · rw [if_pos hcond, hre]
      · rw [if_neg hcond]

/-- Claim C1 — for every dual-mode request whose two branch calls return
keyword list `K` and semantic list `S`, and a reranker honouring its
`top_n` contract (modelled from the spec: `reranker.py` is external and the
spec fixes "return an ordered subset (≤ top_n)"), the final list is the
first `min(5, |K|)` keyword cases in API order tagged `keyword` (the
source's name for the lexical source tag), followed by at most 5 cases all
tagged `semantic`; hence at most 10 results. -/
theorem dual_merge_bounded_and_tagged (db : CourtsDB) (a : Args) (cl : Client)
    (rr : Except Exc Reranker) (today : Int) (kwResp semResp : SearchResponse)
    (hboth : ((prepare db a today).search_type == "both") = true)
    (hk : cl (dualKeywordParams (prepare db a today)) = .ok kwResp)
    (hs : cl (dualSemanticParams (prepare db a today)) = .ok semResp)
    (hcontract : ∀ r l, rr = .ok r →
      r.rerank (prepare db a today).query semResp.results semantic_top_n = .ok l →
      l.length ≤ semantic_top_n) :
    (execute_search_case_law db a (some cl) rr today).success = true ∧
    (execute_search_case_law db a (some cl) rr today).results.length ≤ 10 ∧
    (execute_search_case_law db a (some cl) rr today).results.take
        (min 5 kwResp.results.length) =
      (kwResp.results.take 5).map (setSource "keyword") ∧
    (∀ c ∈ (execute_search_case_law db a (some cl) rr today).results.take
        (min 5 kwResp.results.length), c.searchSource = some "keyword") ∧
    (∀ c ∈ (execute_search_case_law db a (some cl) rr today).results.drop
        (min 5 kwResp.results.length), c.searchSource = some "semantic") := by
  have hrun := runDualSearch_ok cl rr (prepare db a today) kwResp semResp hk hs
  have hex := execute_dual_ok db a cl rr today _ hboth hrun
  rw [hex]
  have hselLen := semanticSelectDual_len rr (prepare db a today).query
    semResp.results hcontract
  have hkLen :
      ((kwResp.results.take keyword_top_n).map (setSource "keyword")).length =
        min 5 kwResp.results.length := by
    simp [keyword_top_n]
  refine ⟨rfl, ?_, ?_, ?_, ?_⟩
  · simp only [List.length_append, List.length_map]
    have h1 : (kwResp.results.take keyword_top_n).length ≤ 5 :=
      List.length_take_le _ _
    have h2 :
        (semanticSelectDual rr (prepare db a today).query semResp.results).1.length
          ≤ 5 := hselLen
    omega
  · rw [← hkLen, List.take_left]
    simp [keyword_top_n]
  · intro c hc
    rw [← hkLen, List.take_left] at hc
    obtain ⟨x, -, rfl⟩ := List.mem_map.mp hc
    rfl
  · intro c hc
    rw [← hkLen, List.drop_left] at hc
    obtain ⟨x, -, rfl⟩ := List.mem_map.mp hc
    rfl

/-- Witness for **C1**: a concrete dual request, 7 keyword results, 3
semantic results, reranker import failing. -/
theorem dual_merge_bounded_and_tagged_witness :
    (((prepare trivialDb witArgs 0).search_type == "both") = true) ∧
    (witClient (dualKeywordParams (prepare trivialDb witArgs 0)) = .ok witKwResp) ∧
    (witClient (dualSemanticParams (prepare trivialDb witArgs 0)) = .ok witSemResp) ∧
    (execute_search_case_law trivialDb witArgs (some witClient) witRr 0).success = true ∧
    (execute_search_case_law trivialDb witArgs (some witClient) witRr 0).results.length ≤ 10 :=
  have h := dual_merge_bounded_and_tagged trivialDb witArgs witClient witRr 0
    witKwResp witSemResp (by decide) (by decide) (by decide)
    (fun r l hr _ => nomatch hr)
  ⟨by decide, by decide, by decide, h.1, h.2.1⟩

theorem execute_dual_error (db : CourtsDB) (a : Args) (cl : Client)
    (rr : Except Exc Reranker) (today : Int) (e : Exc)
    (hboth : ((prepare db a today).search_type == "both") = true)
    (hrun : runDualSearch cl rr (prepare db a today) = .error e) :
    execute_search_case_law db a (some cl) rr today =
      excFailure e (initialMetadata (prepare db a today)) := by
  unfold execute_search_case_law
  simp only [hboth, if_true, hrun]

theorem execute_single_error (db : CourtsDB) (a : Args) (cl : Client)
    (rr : Except Exc Reranker) (today : Int) (e : Exc)
    (hnb : ¬ (((prepare db a today).search_type == "both") = true))
    (hrun : runSingleSearch cl rr (prepare db a today) = .error e) :
    execute_search_case_law db a (some cl) rr today =
      excFailure e (initialMetadata (prepare db a today)) := by
  have hnb2 : ((prepare db a today).search_type == "both") = false := by
    simpa using hnb
  unfold execute_search_case_law
  simp only [hnb2, Bool.false_eq_true, if_false, hrun]

theorem execute_single_ok (db : CourtsDB) (a : Args) (cl : Client)
    (rr : Except Exc Reranker) (today : Int) (fr : List Case × Bool)
    (hnb : ¬ (((prepare db a today).search_type == "both") = true))
    (hrun : runSingleSearch cl rr (prepare db a today) = .ok fr) :
    execute_search_case_law db a (some cl) rr today =
      { success := true, count := fr.1.length, results := fr.1,
        metadata := { initialMetadata (prepare db a today) with
                      semantic_reranked := fr.2 },
        pagination_has_more := some false,
        api_url := some "",
        search_type_label :=
          some (if (prepare db a today).search_type == "semantic" then "Semantic"
                else "Keyword") } := by
  have hnb2 : ((prepare db a today).search_type == "both") = false := by
    simpa using hnb
  unfold execute_search_case_law
  simp only [hnb2, Bool.false_eq_true, if_false, hrun]

theorem runDualSearch_error_of (cl : Client) (rr : Except Exc Reranker)
    (p : Prepared) (e : Exc)
    (h : (match cl (dualKeywordParams p) with
          | .error e0 => some e0
          | .ok _ =>
            match cl (dualSemanticParams p) with
            | .error e0 => some e0
            | .ok _ => none) = some e) :
    runDualSearch cl rr p = .error e := by
  unfold runDualSearch
  cases hk : cl (dualKeywordParams p) with
  | error e0 =>
    rw [hk] at h
    simp only [Option.some.injEq] at h
    rw [h]
  | ok kw =>
    rw [hk] at h
    cases hs : cl (dualSemanticParams p) with
    | error e0 =>
      rw [hs] at h
      simp only [Option.some.injEq] at h
      rw [h]
    | ok sr =>
      rw [hs] at h
      cases h

/-- Claim C2 — whenever a branch search call inside the orchestration raises,
`execute_search_case_law` (a total function in this embedding: it cannot
itself raise) returns success = false, the exception message, the exception
class name as error classification, and an empty result list. -/
theorem branch_exception_structured_outcome (db : CourtsDB) (a : Args)
    (cl : Client) (rr : Except Exc Reranker) (today : Int) (e : Exc)
    (h : firstBranchError cl (prepare db a today) = some e) :
    (execute_search_case_law db a (some cl) rr today).success = false ∧
    (execute_search_case_law db a (some cl) rr today).error = some e.msg ∧
    (execute_search_case_law db a (some cl) rr today).error_type =
      some e.excType ∧
    (execute_search_case_law db a (some cl) rr today).results = [] ∧
    (execute_search_case_law db a (some cl) rr today).count = 0 := by
  by_cases hb : (((prepare db a today).search_type == "both") = true)
  · have hrun : runDualSearch cl rr (prepare db a today) = .error e := by
      apply runDualSearch_error_of
      unfold firstBranchError at h
      rw [if_pos hb] at h
      exact h
    rw [execute_dual_error db a cl rr today e hb hrun]
    exact ⟨rfl, rfl, rfl, rfl, rfl⟩
  · have hcl : cl (singleParams (prepare db a today)) = .error e := by
      unfold firstBranchError at h
      rw [if_neg hb] at h
      cases hc : cl (singleParams (prepare db a today)) with
      | error e0 =>
        rw [hc] at h
        simp only [Option.some.injEq] at h
        rw [h]
      | ok _ =>
        rw [hc] at h
        cases h
    have hrun : runSingleSearch cl rr (prepare db a today) = .error e := by
      unfold runSingleSearch
      rw [hcl]
    rw [execute_single_error db a cl rr today e hb hrun]
    exact ⟨rfl, rfl, rfl, rfl, rfl⟩

/-- Witness for **C2**: a client whose branch calls always raise. -/
theorem branch_exception_structured_outcome_witness :
    (firstBranchError failClient (prepare trivialDb witArgs 0) = some connErr) ∧
    (execute_search_case_law trivialDb witArgs (some failClient) witRr
      0).success = false ∧
    (execute_search_case_law trivialDb witArgs (some failClient) witRr
      0).error_type = some "ConnectionError" :=
  have h := branch_exception_structured_outcome trivialDb witArgs failClient
    witRr 0 connErr (by decide)
  ⟨by decide, h.1, h.2.2.1⟩

/-- Claim C4 — when the reranker fails to import, is unavailable, or its
rerank call raises, the dual orchestration still succeeds (nothing is
raised to the caller), the rerank flag stays false, and the semantic block
of the final list equals the upstream semantic candidates in original
order truncated to top_n = 5. -/
theorem reranker_unavailable_fallback (db : CourtsDB) (a : Args) (cl : Client)
    (rr : Except Exc Reranker) (today : Int) (kwResp semResp : SearchResponse)
    (hboth : ((prepare db a today).search_type == "both") = true)
    (hk : cl (dualKeywordParams (prepare db a today)) = .ok kwResp)
    (hs : cl (dualSemanticParams (prepare db a today)) = .ok semResp)
    (hfb : (∃ e, rr = .error e) ∨
      ∃ r, rr = .ok r ∧ (r.available = false ∨
        ∃ e, r.rerank (prepare db a today).query semResp.results
          semantic_top_n = .error e)) :
    (execute_search_case_law db a (some cl) rr today).success = true ∧
    (execute_search_case_law db a (some cl) rr
      today).metadata.semantic_reranked = false ∧
    (execute_search_case_law db a (some cl) rr today).results.drop
        (min 5 kwResp.results.length) =
      (semResp.results.take 5).map (setSource "semantic") := by
  have hsel := semanticSelectDual_fallback rr (prepare db a today).query
    semResp.results hfb
  have hrun := runDualSearch_ok cl rr (prepare db a today) kwResp semResp hk hs
  rw [hsel] at hrun
  have hex := execute_dual_ok db a cl rr today _ hboth hrun
  rw [hex]
  refine ⟨rfl, rfl, ?_⟩
  have hkLen :
      ((kwResp.results.take keyword_top_n).map (setSource "keyword")).length =
        min 5 kwResp.results.length := by
    simp [keyword_top_n]
  rw [← hkLen, List.drop_left]
  rfl

/-- Witness for **C4**: reranker import failure on a concrete dual
request. -/
theorem reranker_unavailable_fallback_witness :
    (((prepare trivialDb witArgs 0).search_type == "both") = true) ∧
    (∃ e, witRr = .error e) ∧
    ((execute_search_case_law trivialDb witArgs (some witClient) witRr
        0).success = true ∧
     (execute_search_case_law trivialDb witArgs (some witClient) witRr
        0).metadata.semantic_reranked = false) :=
  have h := reranker_unavailable_fallback trivialDb witArgs witClient witRr 0
    witKwResp witSemResp (by decide) (by decide) (by decide)
    (Or.inl ⟨{ excType := "ImportError", msg := "no module named cohere" }, rfl⟩)
  ⟨by decide, ⟨_, rfl⟩, h.1, h.2.1⟩

/-- Claim C9 — a successful dual-mode outcome always reports
`pagination.has_more = false`, whatever cursor or page size the request
supplied. -/
theorem dual_success_no_pagination (db : CourtsDB) (a : Args) (cl : Client)
    (rr : Except Exc Reranker) (today : Int) (d : DualOutput)
    (hboth : ((prepare db a today).search_type == "both") = true)
    (hrun : runDualSearch cl rr (prepare db a today) = .ok d) :
    (execute_search_case_law db a (some cl) rr today).success = true ∧
    (execute_search_case_law db a (some cl) rr today).pagination_has_more =
      some false := by
  rw [execute_dual_ok db a cl rr today d hboth hrun]
  exact ⟨rfl, rfl⟩

/-- Witness for **C9**: cursor and page size supplied, has_more still
false. -/
theorem dual_success_no_pagination_witness :
    witArgsCursor.cursor = some "next-page-token" ∧
    witArgsCursor.page_size = some 15 ∧
    (((prepare trivialDb witArgsCursor 0).search_type == "both") = true) ∧
    (runDualSearch witClient witRr (prepare trivialDb witArgsCursor 0) =
      .ok witDual) ∧
    (execute_search_case_law trivialDb witArgsCursor (some witClient) witRr
      0).pagination_has_more = some false :=
  have h := dual_success_no_pagination trivialDb witArgsCursor witClient witRr 0
    witDual (by decide) (by decide)
  ⟨rfl, rfl, by decide, by decide, h.2⟩

/-! ## C5: single-mode handling -/

/-- Specification of the `search_type` field of `prepare`: the requested
mode is honoured only when it is "keyword" or "semantic" *and* the
reasoning text contains "only"; otherwise dual search is forced
(src/tools.py:1170-1182). -/
theorem prepare_search_type_eq (db : CourtsDB) (a : Args) (today : Int) :
    (prepare db a today).search_type =
      (if ((a.search_type.getD "semantic") == "keyword" ||
            (a.search_type.getD "semantic") == "semantic") &&
          containsSubstr (strLower (a.reasoning.getD "")) "only"
       then a.search_type.getD "semantic" else "both") := rfl

/-- Claim C5, counterexample — a request with `search_type = "keyword"` (and
no "only" in its reasoning) is *not* run as a single-mode request: the
orchestrator forces dual mode and issues two branch calls, refuting
"exactly one branch call" for every keyword/semantic request. -/
theorem single_mode_not_honored :
    c5Args.search_type = some "keyword" ∧
    (prepare trivialDb c5Args 0).search_type = "both" ∧
    (searchCallParams (prepare trivialDb c5Args 0)).length = 2 :=
  ⟨rfl, by decide, by decide⟩

theorem runSingleSearch_keyword (cl : Client) (rr : Except Exc Reranker)
    (p : Prepared) (resp : SearchResponse)
    (hkw : p.search_type = "keyword")
    (hcl : cl (singleParams p) = .ok resp) :
    runSingleSearch cl rr p =
      .ok ((resp.results.take keyword_top_n).map (setSource "keyword"), false) := by
  unfold runSingleSearch
  rw [hcl]
  simp [hkw, singleActualType]

/-- Claim C5, amended — for every request whose `search_type` is "keyword" or
"semantic" *and whose reasoning contains the substring "only"*, the
orchestrator plans exactly one branch call, in the requested mode; in
keyword mode the outcome is the top-5 of that single branch in API order
with no reranking. -/
theorem explicit_single_mode_honored (db : CourtsDB) (a : Args) (cl : Client)
    (rr : Except Exc Reranker) (today : Int) (resp : SearchResponse)
    (req : String)
    (hreq : a.search_type = some req)
    (hkReq : req = "keyword" ∨ req = "semantic")
    (honly : containsSubstr (strLower (a.reasoning.getD "")) "only" = true)
    (hcl : cl (singleParams (prepare db a today)) = .ok resp) :
    searchCallParams (prepare db a today) =
      [singleParams (prepare db a today)] ∧
    (singleParams (prepare db a today)).search_type = req ∧
    (req = "keyword" →
      (execute_search_case_law db a (some cl) rr today).results =
        (resp.results.take keyword_top_n).map (setSource "keyword") ∧
      (execute_search_case_law db a (some cl) rr
        today).metadata.semantic_reranked = false) := by
  have hst : (prepare db a today).search_type = req := by
    rw [prepare_search_type_eq, hreq]
    have hcond : (((some req).getD "semantic" == "keyword" ||
        (some req).getD "semantic" == "semantic") &&
        containsSubstr (strLower (a.reasoning.getD "")) "only") = true := by
      rcases hkReq with rfl | rfl <;> simp [honly]
    rw [if_pos hcond]
    rfl
  have hnb : ¬ (((prepare db a today).search_type == "both") = true) := by
    rw [hst]
    rcases hkReq with rfl | rfl <;> decide
  have hnb2 : ((prepare db a today).search_type == "both") = false := by
    simpa using hnb
  refine ⟨?_, ?_, ?_⟩
  · unfold searchCallParams
    rw [hnb2]
    simp
  · unfold singleParams baseParams singleActualType
    rcases hkReq with rfl | rfl <;> simp [hst]
  · intro hkwd
    subst hkwd
    have hrun := runSingleSearch_keyword cl rr (prepare db a today) resp hst hcl
    rw [execute_single_ok db a cl rr today _ hnb hrun]
    exact ⟨rfl, rfl⟩

/-- Witness for **C5** (amended): an explicit keyword-only request against
a concrete client. -/
theorem explicit_single_mode_honored_witness :
    c5WitArgs.search_type = some "keyword" ∧
    containsSubstr (strLower (c5WitArgs.reasoning.getD "")) "only" = true ∧
    (witClient (singleParams (prepare trivialDb c5WitArgs 0)) = .ok witKwResp) ∧
    searchCallParams (prepare trivialDb c5WitArgs 0) =
      [singleParams (prepare trivialDb c5WitArgs 0)] ∧
    (execute_search_case_law trivialDb c5WitArgs (some witClient) witRr
      0).metadata.semantic_reranked = false :=
  have h := explicit_single_mode_honored trivialDb c5WitArgs witClient witRr 0
    witKwResp "keyword" rfl (Or.inl rfl) (by decide) (by decide)
  ⟨rfl, by decide, by decide, h.1, (h.2.2 rfl).2⟩

/-! ## C10: case-insensitive Boolean detection and verbatim lexical query -/

theorem opWordAt_of_lowerWordAt (cs : List Char) (i : Nat) (w : List Char)
    (hw : w.map Char.toLower = w) (h : lowerWordAt cs i w = true) :
    opWordAt cs i w = true := by
  simp only [lowerWordAt, Bool.and_eq_true, beq_iff_eq] at h
  simp only [opWordAt, Bool.and_eq_true, beq_iff_eq]
  obtain ⟨⟨h1, h2⟩, h3⟩ := h
  exact ⟨⟨by rw [h1, hw], h2⟩, h3⟩

theorem lt_length_of_lowerWordAt (cs : List Char) (i : Nat) (w : List Char)
    (hw : w ≠ []) (h : lowerWordAt cs i w = true) : i < cs.length := by
  simp only [lowerWordAt, Bool.and_eq_true, beq_iff_eq] at h
  by_contra hge
  push_neg at hge
  rw [List.drop_eq_nil_of_le hge] at h
  simp at h
  exact hw h.1.1

theorem has_bool_of_lower_word (q : String) (w : List Char) (i : Nat)
    (hw : w = "and".toList ∨ w = "or".toList ∨ w = "not".toList)
    (h : lowerWordAt q.toList i w = true) :
    has_boolean_operators q = true := by
  have hlow : w.map Char.toLower = w := by
    rcases hw with rfl | rfl | rfl <;> decide
  have hne : w ≠ [] := by
    rcases hw with rfl | rfl | rfl <;> decide
  have hop := opWordAt_of_lowerWordAt q.toList i w hlow h
  have hlt := lt_length_of_lowerWordAt q.toList i w hne h
  have hany : (List.range q.toList.length).any (fun j =>
      opWordAt q.toList j "and".toList || opWordAt q.toList j "or".toList ||
      opWordAt q.toList j "not".toList) = true := by
    rw [List.any_eq_true]
    refine ⟨i, List.mem_range.mpr hlt, ?_⟩
    simp only [Bool.or_eq_true]
    rcases hw with rfl | rfl | rfl
    · exact Or.inl (Or.inl hop)
    · exact Or.inl (Or.inr hop)
    · exact Or.inr hop
  simp only [has_boolean_operators, Bool.or_eq_true]
  exact Or.inr hany

/-- The `_metadata` queries are fixed before the `try` block, so every
return path carries the same `keyword_query`/`semantic_query`. -/
theorem execute_metadata_queries (db : CourtsDB) (a : Args)
    (client : Option Client) (rr : Except Exc Reranker) (today : Int) :
    (execute_search_case_law db a client rr today).metadata.keyword_query =
      (prepare db a today).keyword_query ∧
    (execute_search_case_law db a client rr today).metadata.semantic_query =
      (prepare db a today).query := by
  unfold execute_search_case_law
  cases client with
  | none => exact ⟨rfl, rfl⟩
  | some cl =>
    by_cases hb : (((prepare db a today).search_type == "both") = true)
    · simp only [hb, if_true]
      cases hrun : runDualSearch cl rr (prepare db a today) with
      | error e => exact ⟨rfl, rfl⟩
      | ok d => exact ⟨rfl, rfl⟩
    · have hb2 : ((prepare db a today).search_type == "both") = false := by
        simpa using hb
      simp only [hb2, Bool.false_eq_true, if_false]
      cases hrun : runSingleSearch cl rr (prepare db a today) with
      | error e => exact ⟨rfl, rfl⟩
      | ok fr => exact ⟨rfl, rfl⟩

/-- Specification of the semantic query of `prepare`
(src/tools.py:1161-1168). -/
theorem prepare_query_eq (db : CourtsDB) (a : Args) (today : Int) :
    (prepare db a today).query =
      (if has_boolean_operators (a.query.getD (a.extracted_query.getD ""))
       then convert_boolean_to_natural_language
         (a.query.getD (a.extracted_query.getD ""))
       else a.query.getD (a.extracted_query.getD "")) := rfl

/-- Specification of the keyword query of `prepare`
(src/tools.py:1161-1194). -/
theorem prepare_keyword_query_eq (db : CourtsDB) (a : Args) (today : Int) :
    (prepare db a today).keyword_query =
      (let oq := a.query.getD (a.extracted_query.getD "")
       let kq0 := a.keyword_query.getD ""
       let kq1 := if has_boolean_operators oq then
           (if kq0 == "" then oq else kq0) else kq0
       let req := a.search_type.getD "semantic"
       let es := (req == "keyword" || req == "semantic") &&
         containsSubstr (strLower (a.reasoning.getD "")) "only"
       if es then kq1
       else if kq1 == "" then
         autoKeywordQuery (if has_boolean_operators oq then
           convert_boolean_to_natural_language oq else oq)
       else kq1) := rfl

/-- Claim C10 — Boolean-operator detection is case-insensitive over whole
words and bare symbols: a query containing the lower-case words
`and`/`or`/`not` (word-delimited) or a `&`/`%` anywhere is classified as
Boolean; such a query (with no separate keyword_query supplied) is kept
verbatim as the lexical (keyword) query while the semantic query becomes
its operator-stripped rewrite — on every return path of the
orchestrator. -/
theorem boolean_detection_and_verbatim_lexical (db : CourtsDB) (a : Args)
    (client : Option Client) (rr : Except Exc Reranker) (today : Int)
    (q : String)
    (hq : a.query = some q)
    (hkq : a.keyword_query.getD "" = "")
    (hocc : (∃ i w, (w = "and".toList ∨ w = "or".toList ∨ w = "not".toList) ∧
              lowerWordAt q.toList i w = true) ∨
            q.toList.contains '&' = true ∨ q.toList.contains '%' = true) :
    has_boolean_operators q = true ∧
    (execute_search_case_law db a client rr today).metadata.keyword_query = q ∧
    (execute_search_case_law db a client rr today).metadata.semantic_query =
      convert_boolean_to_natural_language q := by
  have hqne : q.toList ≠ [] := by
    rcases hocc with ⟨i, w, hw, h⟩ | h | h
    · have hne : w ≠ [] := by rcases hw with rfl | rfl | rfl <;> decide
      have := lt_length_of_lowerWordAt q.toList i w hne h
      intro h0
      rw [h0] at this
      simp at this
    · intro h0; rw [h0] at h; simp at h
    · intro h0; rw [h0] at h; simp at h
  have hqne2 : (q == "") = false := by
    cases hbe : q == "" with
    | true =>
      exfalso
      apply hqne
      have : q = "" := by simpa using hbe
      rw [this]
      rfl
    | false => rfl
  have hbool : has_boolean_operators q = true := by
    rcases hocc with ⟨i, w, hw, h⟩ | h | h
    · exact has_bool_of_lower_word q w i hw h
    · simp only [has_boolean_operators, Bool.or_eq_true]
      exact Or.inl (Or.inl h)
    · simp only [has_boolean_operators, Bool.or_eq_true]
      exact Or.inl (Or.inr h)
  refine ⟨hbool, ?_, ?_⟩
  · rw [(execute_metadata_queries db a client rr today).1,
      prepare_keyword_query_eq]
    simp only [hq, Option.getD_some, hkq, hbool, if_true, beq_self_eq_true,
      hqne2]
    by_cases hes : ((a.search_type.getD "semantic" == "keyword" ||
        a.search_type.getD "semantic" == "semantic") &&
        containsSubstr (strLower (a.reasoning.getD "")) "only") = true
    · simp [hes]
    · have : ((a.search_type.getD "semantic" == "keyword" ||
          a.search_type.getD "semantic" == "semantic") &&
          containsSubstr (strLower (a.reasoning.getD "")) "only") = false := by
        simpa using hes
      simp [this, hqne2]
  · rw [(execute_metadata_queries db a client rr today).2, prepare_query_eq]
    simp [hq, hbool]

/-- Witness for **C10** at the natural-language query
"slip and fall at the grocery store" (lower-case `and` at index 5). -/
theorem boolean_detection_and_verbatim_lexical_witness :
    ((Args.mk (some "slip and fall at the grocery store") none none none none
      none none none none none none none none none none).query =
        some "slip and fall at the grocery store") ∧
    lowerWordAt "slip and fall at the grocery store".toList 5 "and".toList =
      true ∧
    has_boolean_operators "slip and fall at the grocery store" = true ∧
    (execute_search_case_law trivialDb
      (Args.mk (some "slip and fall at the grocery store") none none none none
        none none none none none none none none none none)
      none witRr 0).metadata.keyword_query =
      "slip and fall at the grocery store" :=
  have h := boolean_detection_and_verbatim_lexical trivialDb
    (Args.mk (some "slip and fall at the grocery store") none none none none
      none none none none none none none none none none)
    none witRr 0 "slip and fall at the grocery store" rfl (by decide)
    (Or.inl ⟨5, "and".toList, Or.inl rfl, by decide⟩)
  ⟨rfl, by decide, h.1, h.2.1⟩

/-! ## Concrete evaluation checks -/

example : has_boolean_operators "slip AND fall" = true := by decide

example : has_boolean_operators "slip and fall" = true := by decide

example : has_boolean_operators "slip fall" = false := by decide

example : has_boolean_operators "sandwich order" = false := by decide

example : has_boolean_operators "a&b" = true := by decide

example : convert_boolean_to_natural_language "employment AND discrimination" =
    "employment discrimination" := by decide

example : convert_boolean_to_natural_language "negligence NOT intentional" =
    "negligence but not intentional" := by decide

example : convert_boolean_to_natural_language "border % patrol" =
    "border but not patrol" := by decide

example : convert_boolean_to_natural_language
    "slip AND fall OR premises liability" = "slip fall or premises liability" := by
  decide

example : (extract_search_query "cases").query = "" := by decide

example : (extract_search_query "find me cases about premises liability").query =
    "premises liability" := by decide

example : (extract_search_query "breach of contract" true).query =
    "breach AND contract" := by decide

example : (extract_search_query "court").query = "court" := by decide

example : (map_jurisdiction_to_codes trivialDb "texas federal").court_codes =
    "ca5 txed txnd txsd txwd txeb txnb txsb txwb" := by decide

example : (map_jurisdiction_to_codes trivialDb "").valid = true := by decide

example : (map_jurisdiction_to_codes trivialDb "State of California").court_codes =
    (map_jurisdiction_to_codes trivialDb "california").court_codes := by decide

example : (map_jurisdiction_to_codes trivialDb "ind").court_codes =
    "ind indctapp ca7 innd insd innb insb" := by decide

example : formatDate 739901 = "10/12/2026" := by decide

example : formatDate (739901 - 5 * 365) = "10/13/2021" := by decide

example : parse_date_input "last 5 years" 739901 =
    .ok { valid := true, filed_after := "10/13/2021",
          filed_before := "10/12/2026", description := "Last 5 year(s)" } := by
  decide

example : parse_date_input "past 3 years" 739901 =
    .ok { valid := true, filed_after := formatDate (739901 - 3 * 365),
          filed_before := formatDate 739901,
          description := "Last 3 year(s)" } := by decide

example : parse_date_input "5 last years" 739901 =
    .ok { valid := true, filed_after := formatDate (739901 - 5 * 365),
          filed_before := formatDate 739901,
          description := "Last 5 year(s)" } := by decide

example : parse_date_input "last 2100 years" 739901 = .error overflowErr := by
  decide

example : parse_date_input "last 2000 years" 739901 =
    .ok { valid := true, filed_after := formatDate (739901 - 2000 * 365),
          filed_before := formatDate 739901,
          description := "Last 2000 year(s)" } := by decide

example : parse_date_input "2020 to 2023" 739901 =
    .ok { valid := true, filed_after := "01/01/2020",
          filed_before := "12/31/2023", description := "2020 to 2023" } := by
  decide

example : parse_date_input "since 2020" 739901 =
    .ok { valid := true, filed_after := "01/01/2020",
          filed_before := formatDate 739901, description := "Since 2020" } := by
  decide

example : parse_date_input "before 2019" 739901 =
    .ok { valid := true, filed_after := "", filed_before := "12/31/2019",
          description := "Before 2019" } := by decide

example : parse_date_input "2020" 739901 =
    .ok { valid := true, filed_after := "01/01/2020",
          filed_before := "12/31/2020", description := "Year 2020" } := by decide

example : parse_date_input "2020-06-15" 739901 =
    .ok { valid := true, filed_after := "06/15/2020", filed_before := "",
          description := "After 06/15/2020" } := by decide

example : (parse_date_input "yesterday" 739901).toOption.map DateResult.valid =
    some false := by decide

